import Mathlib

/-!
# PhysicsServer (examples/SharedMemory/PhysicsServer.cpp)

A shallow embedding of the shared-memory physics server: the shared block
with its two command slots and four counters, the server object with its two
pointers, and the methods `releaseSharedMemory`, `initPhysics`, `loadUrdf`,
`stepSimulation` and `wantsTermination`.

Conventions of the embedding.

* `btScalar`/`double` values are only copied by this file, never computed
  with; they are an arbitrary type `α`.
* The counters are C `int` values of 32 bits held in `Int`. The statement
  `m_numServerCommands++` wraps from 2147483647 to -2147483648 (the source
  states "we ignore overflow of integer for now"). The statement
  `m_numProcessedClientCommands++` runs only under the guard
  `m_numClientCommands > m_numProcessedClientCommands`, where the counter is
  below an `int` value and its increment does not overflow.
* A pointer is modelled by whether it is null (`Bool`), the memory of the
  shared segment by the field `m_block` of the server model.
* `btAssert` is recorded in the event trace with the value of its condition
  and execution continues (the behaviour of a build without assertions); a
  call through a null pointer has no defined behaviour and yields `none`.
* `b3Printf` is pure logging and is left out; `b3Warning` and `b3Error` are
  recorded in the event trace.
-/

namespace PhysicsServer

/-- Three-component vector `btVector3`; `v[0]`, `v[1]`, `v[2]` are `x`, `y`, `z`. -/
structure btVector3 (α : Type) where
  x : α
  y : α
  z : α

/-- Quaternion `btQuaternion`; `q[0..3]` are `x`, `y`, `z`, `w`. -/
structure btQuaternion (α : Type) where
  x : α
  y : α
  z : α
  w : α

/-- The part of `btMultibodyLink` read by the server: the two counts and the
arrays returned by `getJointPosMultiDof(l)` and `getJointVelMultiDof(l)`. -/
structure btMultibodyLink (α : Type) where
  m_posVarCount : Nat
  m_dofCount : Nat
  m_jointPos : Nat → α
  m_jointVel : Nat → α

/-- The part of `btMultiBody` read by the server. -/
structure btMultiBody (α : Type) where
  m_basePos : btVector3 α
  m_worldToBaseRot : btQuaternion α
  m_baseVel : btVector3 α
  m_baseOmega : btVector3 α
  m_links : List (btMultibodyLink α)

/-- A constraint of the world: its joint-feedback pointer (`none` is null); a
record allocated by `new btJointFeedback()` is named by its allocation index. -/
structure btTypedConstraint where
  m_jointFeedback : Option Nat
deriving DecidableEq, Repr

/-- The part of the dynamics world the server reads or writes. -/
structure btMultiBodyDynamicsWorld (α : Type) where
  m_multiBodies : List (btMultiBody α)
  m_constraints : List btTypedConstraint

/-- Arguments of `CMD_LOAD_URDF`. -/
structure UrdfArgs where
  m_urdfFileName : String
  m_useMultiBody : Bool
  m_useFixedBase : Bool
deriving DecidableEq, Repr

/-- Arguments of `CMD_STEP_FORWARD_SIMULATION`. -/
structure StepSimulationArgs (α : Type) where
  m_deltaTimeInSeconds : α

/-- Payload of `CMD_ACTUAL_STATE_UPDATE_COMPLETED`. -/
structure SendActualStateArgs where
  m_bodyUniqueId : Int
  m_numDegreeOfFreedomQ : Int
  m_numDegreeOfFreedomU : Int
deriving DecidableEq, Repr

/-- One command slot: the integer tag `m_type` and the argument records the
server accesses. -/
structure SharedMemoryCommand (α : Type) where
  m_type : Int
  m_urdfArguments : UrdfArgs
  m_stepSimulationArguments : StepSimulationArgs α
  m_sendActualStateArgs : SendActualStateArgs

/-- The shared block `SharedMemoryExampleData`. The arrays are maps from the
index to the element. -/
structure SharedMemoryExampleData (α : Type) where
  m_magicId : Int
  m_clientCommands : Nat → SharedMemoryCommand α
  m_serverCommands : Nat → SharedMemoryCommand α
  m_numClientCommands : Int
  m_numProcessedClientCommands : Int
  m_numServerCommands : Int
  m_numProcessedServerCommands : Int
  m_actualStateQ : Nat → α
  m_actualStateQdot : Nat → α

/-- Effects of a method that are not a field of the server or of the block. -/
inductive Event where
  /-- Evaluation of `btAssert` at a source line with the value of its condition. -/
  | btAssert (line : Nat) (cond : Bool)
  /-- Call of `b3Error` at a source line. -/
  | b3Error (line : Nat)
  /-- Call of `b3Warning` at a source line. -/
  | b3Warning (line : Nat)
  /-- Call of `m_sharedMemory->releaseSharedMemory(KEY, SIZE)`. -/
  | releaseSharedRegion
  /-- Execution of `delete m_sharedMemory`. -/
  | deleteSharedMemory
  /-- Store to `m_actualStateQ[i]`. -/
  | writeQ (i : Nat)
  /-- Store to `m_actualStateQdot[i]`. -/
  | writeQdot (i : Nat)
  /-- Store to `m_serverCommands[0].m_type`. -/
  | writeReplyType (tag : Int)
deriving DecidableEq, Repr

/-- Modelled from the spec: the enumerators of the command tags, declared in
SharedMemoryCommon.h (not part of the sources). The four client tags label the
cases of one `switch`, so they are pairwise different. -/
structure CommandTags where
  CMD_LOAD_URDF : Int
  CMD_REQUEST_ACTUAL_STATE : Int
  CMD_STEP_FORWARD_SIMULATION : Int
  CMD_SHUTDOWN : Int
  CMD_URDF_LOADING_COMPLETED : Int
  CMD_URDF_LOADING_FAILED : Int
  CMD_ACTUAL_STATE_UPDATE_COMPLETED : Int
  CMD_STEP_FORWARD_SIMULATION_COMPLETED : Int
  SHARED_MEMORY_MAGIC_NUMBER : Int
  caseLabelsDistinct :
    [CMD_LOAD_URDF, CMD_REQUEST_ACTUAL_STATE, CMD_STEP_FORWARD_SIMULATION, CMD_SHUTDOWN].Nodup

/-- The collaborators of the server whose code is outside this file: the
command tags, the URDF importer, the world and the transform arithmetic. -/
structure Collaborators (α : Type) where
  tags : CommandTags
  /-- Result of `ROSURDFImporter::loadURDF(fileName)`. -/
  loadURDF : String → Bool
  /-- The world after `ConvertURDF2Bullet(u2b, creation, tr, world, useMultiBody, prefix)`
  where `tr` has origin `pos` and rotation `orn`. -/
  ConvertURDF2Bullet : String → btVector3 α → btQuaternion α →
    btMultiBodyDynamicsWorld α → Bool → btMultiBodyDynamicsWorld α
  /-- Whether `creation.getBulletMultiBody()` is non-null after that conversion. -/
  getBulletMultiBody : String → btVector3 α → btQuaternion α →
    btMultiBodyDynamicsWorld α → Bool → Bool
  /-- The world after `m_dynamicsWorld->stepSimulation(timeStep)`. -/
  worldStepSimulation : btMultiBodyDynamicsWorld α → α → btMultiBodyDynamicsWorld α
  /-- The world made by `createEmptyDynamicsWorld()` with the gravity of `initPhysics` set. -/
  createEmptyDynamicsWorld : btMultiBodyDynamicsWorld α
  /-- The quaternion `q.inverse()`. -/
  quatInverse : btQuaternion α → btQuaternion α
  /-- The quaternion `tr.getRotation()` after `tr.setRotation(q)`. -/
  transformRotation : btQuaternion α → btQuaternion α
  /-- The scalars `0` and `1` of `btVector3(0,0,0)` and `btQuaternion(0,0,0,1)`. -/
  zero : α
  one : α

/-- The server object: its members, the memory of the shared segment its block
pointer refers to, and the trace of its external effects. -/
structure Server (α : Type) where
  /-- `m_sharedMemory != 0`. -/
  m_sharedMemory : Bool
  /-- `m_testBlock1 != 0`. -/
  m_testBlock1 : Bool
  /-- The memory of the shared segment (what `m_testBlock1` points to when non-null). -/
  m_block : SharedMemoryExampleData α
  /-- The records pushed to `m_jointFeedbacks`, by allocation index. -/
  m_jointFeedbacks : List Nat
  m_wantsShutdown : Bool
  m_dynamicsWorld : btMultiBodyDynamicsWorld α
  events : List Event

/-- Store `v` at index `i` of an array. -/
def store {β : Type} (a : Nat → β) (i : Nat) (v : β) : Nat → β :=
  fun j => if j = i then v else a j

/-- Record an event. -/
def Server.emit {α : Type} (s : Server α) (e : Event) : Server α :=
  { s with events := s.events ++ [e] }

/-- The constructor `PhysicsServer::PhysicsServer`: the handle is allocated, the
block pointer is null and no shutdown is requested. The other members are
whatever the memory and the base class provide. -/
def construct {α : Type} (block : SharedMemoryExampleData α)
    (world : btMultiBodyDynamicsWorld α) : Server α :=
  { m_sharedMemory := true
    m_testBlock1 := false
    m_block := block
    m_jointFeedbacks := []
    m_wantsShutdown := false
    m_dynamicsWorld := world
    events := [] }

/-- The method `PhysicsServer::releaseSharedMemory` (lines 63-81). -/
def releaseSharedMemory {α : Type} (s : Server α) : Option (Server α) :=
  let r1 : Option (Server α) :=
    if s.m_testBlock1 then
      let s1 := { s with m_block := { s.m_block with m_magicId := 0 } }
      let s2 := s1.emit (Event.btAssert 71 s1.m_sharedMemory)
      if s2.m_sharedMemory then some (s2.emit Event.releaseSharedRegion) else none
    else some s
  r1.bind fun s3 =>
    if s3.m_sharedMemory then
      let s4 := s3.emit Event.deleteSharedMemory
      some { s4 with m_sharedMemory := false, m_testBlock1 := false }
    else some s3

/-- The method `PhysicsServer::wantsTermination` (lines 126-129). -/
def wantsTermination {α : Type} (s : Server α) : Bool :=
  s.m_wantsShutdown

/-- The method `PhysicsServer::initPhysics` (lines 88-123); `allocated` is
whether `allocateSharedMemory` returned a non-null pointer. -/
def initPhysics {α : Type} (env : Collaborators α) (allocated : Bool) (s : Server α) :
    Option (Server α) :=
  let s1 := { s with m_dynamicsWorld := env.createEmptyDynamicsWorld }
  if s1.m_sharedMemory then
    let s2 := { s1 with m_testBlock1 := allocated }
    if s2.m_testBlock1 then
      let b := s2.m_block
      let b1 := { b with m_numClientCommands := 0 }
      let b2 := { b1 with m_numServerCommands := 0 }
      let b3 := { b2 with m_numProcessedClientCommands := 0 }
      let b4 := { b3 with m_numProcessedServerCommands := 0 }
      let b5 := { b4 with m_magicId := env.tags.SHARED_MEMORY_MAGIC_NUMBER }
      some { s2 with m_block := b5 }
    else
      some (s2.emit (Event.b3Error 121))
  else none

/-- One pass of the loop of `loadUrdf` (lines 165-168) for constraint `i`: a new
feedback record is allocated, pushed to `m_jointFeedbacks` and set on the
constraint. -/
def attachJointFeedback {α : Type} (s : Server α) (i : Nat) : Server α :=
  let fb := s.m_jointFeedbacks.length
  let s1 := { s with m_jointFeedbacks := s.m_jointFeedbacks ++ [fb] }
  { s1 with m_dynamicsWorld :=
      { s1.m_dynamicsWorld with
        m_constraints := s1.m_dynamicsWorld.m_constraints.set i { m_jointFeedback := some fb } } }

/-- The method `PhysicsServer::loadUrdf` (lines 131-177): the server after the
call and the returned boolean. The argument `useFixedBase` is not read by the
body. -/
def loadUrdf {α : Type} (env : Collaborators α) (s : Server α) (fileName : String)
    (pos : btVector3 α) (orn : btQuaternion α) (useMultiBody : Bool) (_useFixedBase : Bool) :
    Server α × Bool :=
  let loadOk := env.loadURDF fileName
  if loadOk then
    let mb := env.getBulletMultiBody fileName pos orn s.m_dynamicsWorld useMultiBody
    let s1 := { s with m_dynamicsWorld :=
      env.ConvertURDF2Bullet fileName pos orn s.m_dynamicsWorld useMultiBody }
    if useMultiBody then
      if mb then (s1, true)
      else (s1.emit (Event.b3Warning 158), false)
    else
      ((List.range s1.m_dynamicsWorld.m_constraints.length).foldl attachJointFeedback s1, true)
  else (s, false)

/-- Store to `m_testBlock1->m_actualStateQ[i]`. -/
def writeQ {α : Type} (s : Server α) (i : Nat) (v : α) : Server α :=
  ({ s with m_block := { s.m_block with m_actualStateQ := store s.m_block.m_actualStateQ i v } }).emit
    (Event.writeQ i)

/-- Store to `m_testBlock1->m_actualStateQdot[i]`. -/
def writeQdot {α : Type} (s : Server α) (i : Nat) (v : α) : Server α :=
  ({ s with m_block :=
      { s.m_block with m_actualStateQdot := store s.m_block.m_actualStateQdot i v } }).emit
    (Event.writeQdot i)

/-- Store to `serverCmd.m_type` where `serverCmd` is `m_testBlock1->m_serverCommands[0]`. -/
def setReplyType {α : Type} (s : Server α) (tag : Int) : Server α :=
  ({ s with m_block :=
      { s.m_block with
        m_serverCommands :=
          store s.m_block.m_serverCommands 0 { s.m_block.m_serverCommands 0 with m_type := tag } } }).emit
    (Event.writeReplyType tag)

/-- Store of a whole `m_sendActualStateArgs` record into `m_serverCommands[0]`. -/
def setReplyStateArgs {α : Type} (s : Server α) (a : SendActualStateArgs) : Server α :=
  { s with m_block :=
      { s.m_block with
        m_serverCommands :=
          store s.m_block.m_serverCommands 0
            { s.m_block.m_serverCommands 0 with m_sendActualStateArgs := a } } }

/-- The value of `x + 1` in a C `int` of 32 bits: 2147483647 gives -2147483648. -/
def incrementInt (x : Int) : Int :=
  (x + 1 + 2147483648) % 4294967296 - 2147483648

/-- The statement `m_testBlock1->m_numServerCommands++`. -/
def incNumServerCommands {α : Type} (s : Server α) : Server α :=
  { s with m_block :=
      { s.m_block with m_numServerCommands := incrementInt s.m_block.m_numServerCommands } }

/-- One pass of the loop of line 268: `m_actualStateQ[totalDegreeOfFreedomQ++] = jointPos[d]`.
The state is the server and `totalDegreeOfFreedomQ`. -/
def packJointPos {α : Type} (lk : btMultibodyLink α) (st : Server α × Nat) (d : Nat) :
    Server α × Nat :=
  (writeQ st.1 st.2 (lk.m_jointPos d), st.2 + 1)

/-- One pass of the loop of line 272: `m_actualStateQdot[totalDegreeOfFreedomU++] = jointVel[d]`.
The state is the server and `totalDegreeOfFreedomU`. -/
def packJointVel {α : Type} (lk : btMultibodyLink α) (st : Server α × Nat) (d : Nat) :
    Server α × Nat :=
  (writeQdot st.1 st.2 (lk.m_jointVel d), st.2 + 1)

/-- One pass of the loop over the links (lines 266-277). The state is the
server, `totalDegreeOfFreedomQ` and `totalDegreeOfFreedomU`. -/
def packLink {α : Type} (st : Server α × Nat × Nat) (lk : btMultibodyLink α) :
    Server α × Nat × Nat :=
  let r1 := (List.range lk.m_posVarCount).foldl (packJointPos lk) (st.1, st.2.1)
  let r2 := (List.range lk.m_dofCount).foldl (packJointVel lk) (r1.1, st.2.2)
  (r2.1, r1.2, r2.2)

/-- The branch of lines 227-280: the first multibody `mb` is packed into the
block and the reply is filled in. -/
def sendActualState {α : Type} (env : Collaborators α) (s : Server α) (mb : btMultiBody α) :
    Server α :=
  let s := setReplyType s env.tags.CMD_ACTUAL_STATE_UPDATE_COMPLETED
  let s := setReplyStateArgs s
    { (s.m_block.m_serverCommands 0).m_sendActualStateArgs with m_bodyUniqueId := 0 }
  let origin := mb.m_basePos
  let rotation := env.transformRotation (env.quatInverse mb.m_worldToBaseRot)
  let s := writeQ s 0 origin.x
  let s := writeQ s 1 origin.y
  let s := writeQ s 2 origin.z
  let s := writeQ s 3 rotation.x
  let s := writeQ s 4 rotation.y
  let s := writeQ s 5 rotation.z
  let s := writeQ s 6 rotation.w
  let totalDegreeOfFreedomQ := 0 + 7
  let s := writeQdot s 0 mb.m_baseVel.x
  let s := writeQdot s 1 mb.m_baseVel.y
  let s := writeQdot s 2 mb.m_baseVel.z
  let s := writeQdot s 3 mb.m_baseOmega.x
  let s := writeQdot s 4 mb.m_baseOmega.y
  let s := writeQdot s 5 mb.m_baseOmega.z
  let totalDegreeOfFreedomU := 0 + 6
  let r := mb.m_links.foldl packLink (s, totalDegreeOfFreedomQ, totalDegreeOfFreedomU)
  let s := r.1
  let s := setReplyStateArgs s
    { (s.m_block.m_serverCommands 0).m_sendActualStateArgs with
      m_numDegreeOfFreedomQ := (r.2.1 : Int) }
  setReplyStateArgs s
    { (s.m_block.m_serverCommands 0).m_sendActualStateArgs with
      m_numDegreeOfFreedomU := (r.2.2 : Int) }

/-- The `switch` of lines 197-338 on the consumed command: the server after the
selected case and the local `wantsShutdown`. -/
def processCommand {α : Type} (env : Collaborators α) (s : Server α)
    (clientCmd : SharedMemoryCommand α) : Server α × Bool :=
  if clientCmd.m_type = env.tags.CMD_LOAD_URDF then
    let r := loadUrdf env s clientCmd.m_urdfArguments.m_urdfFileName
      { x := env.zero, y := env.zero, z := env.zero }
      { x := env.zero, y := env.zero, z := env.zero, w := env.one }
      clientCmd.m_urdfArguments.m_useMultiBody clientCmd.m_urdfArguments.m_useFixedBase
    let completedOk := r.2
    let s1 :=
      if completedOk then setReplyType r.1 env.tags.CMD_URDF_LOADING_COMPLETED
      else setReplyType r.1 env.tags.CMD_URDF_LOADING_FAILED
    (incNumServerCommands s1, false)
  else if clientCmd.m_type = env.tags.CMD_REQUEST_ACTUAL_STATE then
    let s1 :=
      match s.m_dynamicsWorld.m_multiBodies with
      | mb :: _ => sendActualState env s mb
      | [] => s.emit (Event.b3Warning 285)
    (incNumServerCommands s1, false)
  else if clientCmd.m_type = env.tags.CMD_STEP_FORWARD_SIMULATION then
    let timeStep := clientCmd.m_stepSimulationArguments.m_deltaTimeInSeconds
    let s1 := { s with m_dynamicsWorld := env.worldStepSimulation s.m_dynamicsWorld timeStep }
    let s2 := setReplyType s1 env.tags.CMD_STEP_FORWARD_SIMULATION_COMPLETED
    (incNumServerCommands s2, false)
  else if clientCmd.m_type = env.tags.CMD_SHUTDOWN then
    (s, true)
  else
    ((s.emit (Event.b3Error 335)).emit (Event.btAssert 336 false), false)

/-- The method `PhysicsServer::stepSimulation` (lines 179-353). The argument
`deltaTime` is not read by the body. -/
def stepSimulation {α : Type} (env : Collaborators α) (s : Server α) (_deltaTime : α) :
    Option (Server α) :=
  let r : Server α × Bool :=
    if s.m_testBlock1 then
      if s.m_block.m_numClientCommands > s.m_block.m_numProcessedClientCommands then
        let s1 := s.emit (Event.btAssert 191
          (decide (s.m_block.m_numClientCommands = s.m_block.m_numProcessedClientCommands + 1)))
        let s2 := { s1 with m_block :=
          { s1.m_block with
            m_numProcessedClientCommands := s1.m_block.m_numProcessedClientCommands + 1 } }
        processCommand env s2 (s2.m_block.m_clientCommands 0)
      else (s, false)
    else (s, false)
  if r.2 then
    releaseSharedMemory { r.1 with m_wantsShutdown := true }
  else some r.1

/-! ## Definitions used to state the effect of the packing loops -/

/-- The server after the stores `m_actualStateQ[q + d] = f d` for `d < n` in
increasing order of `d`. -/
def qWrites {α : Type} (s : Server α) (q n : Nat) (f : Nat → α) : Server α :=
  { s with
    m_block := { s.m_block with
      m_actualStateQ := fun j => if q ≤ j ∧ j < q + n then f (j - q) else s.m_block.m_actualStateQ j }
    events := s.events ++ (List.range n).map fun d => Event.writeQ (q + d) }

/-- The server after the stores `m_actualStateQdot[u + d] = f d` for `d < n` in
increasing order of `d`. -/
def uWrites {α : Type} (s : Server α) (u n : Nat) (f : Nat → α) : Server α :=
  { s with
    m_block := { s.m_block with
      m_actualStateQdot :=
        fun j => if u ≤ j ∧ j < u + n then f (j - u) else s.m_block.m_actualStateQdot j }
    events := s.events ++ (List.range n).map fun d => Event.writeQdot (u + d) }

/-- The server `s` with the two state arrays and the event trace of `s1`. -/
def withArraysOf {α : Type} (s s1 : Server α) : Server α :=
  { s with
    m_block := { s.m_block with
      m_actualStateQ := s1.m_block.m_actualStateQ
      m_actualStateQdot := s1.m_block.m_actualStateQdot }
    events := s1.events }

/-- The indices of the stores to `m_actualStateQ` in a trace, in order. -/
def qIndices (es : List Event) : List Nat :=
  es.filterMap fun e => match e with
    | Event.writeQ i => some i
    | _ => none

/-- The indices of the stores to `m_actualStateQdot` in a trace, in order. -/
def uIndices (es : List Event) : List Nat :=
  es.filterMap fun e => match e with
    | Event.writeQdot i => some i
    | _ => none

/-- Sum of `m_posVarCount` over a list of links. -/
def sumPosVarCount {α : Type} (links : List (btMultibodyLink α)) : Nat :=
  (links.map fun lk => lk.m_posVarCount).sum

/-- Sum of `m_dofCount` over a list of links. -/
def sumDofCount {α : Type} (links : List (btMultibodyLink α)) : Nat :=
  (links.map fun lk => lk.m_dofCount).sum

/-- The server after lines 229-264 of `sendActualState`: the reply type, the
body id and the base part of both arrays are stored. -/
def packBase {α : Type} (env : Collaborators α) (s : Server α) (mb : btMultiBody α) : Server α :=
  let s := setReplyType s env.tags.CMD_ACTUAL_STATE_UPDATE_COMPLETED
  let s := setReplyStateArgs s
    { (s.m_block.m_serverCommands 0).m_sendActualStateArgs with m_bodyUniqueId := 0 }
  let rotation := env.transformRotation (env.quatInverse mb.m_worldToBaseRot)
  let s := writeQ s 0 mb.m_basePos.x
  let s := writeQ s 1 mb.m_basePos.y
  let s := writeQ s 2 mb.m_basePos.z
  let s := writeQ s 3 rotation.x
  let s := writeQ s 4 rotation.y
  let s := writeQ s 5 rotation.z
  let s := writeQ s 6 rotation.w
  let s := writeQdot s 0 mb.m_baseVel.x
  let s := writeQdot s 1 mb.m_baseVel.y
  let s := writeQdot s 2 mb.m_baseVel.z
  let s := writeQdot s 3 mb.m_baseOmega.x
  let s := writeQdot s 4 mb.m_baseOmega.y
  writeQdot s 5 mb.m_baseOmega.z

/-- The last two stores of `sendActualState` (lines 279-280) applied to the
result of the loop over the links. -/
def storeCounts {α : Type} (r : Server α × Nat × Nat) : Server α :=
  let s := setReplyStateArgs r.1
    { (r.1.m_block.m_serverCommands 0).m_sendActualStateArgs with
      m_numDegreeOfFreedomQ := (r.2.1 : Int) }
  setReplyStateArgs s
    { (s.m_block.m_serverCommands 0).m_sendActualStateArgs with
      m_numDegreeOfFreedomU := (r.2.2 : Int) }

/-- The server after lines 191-194 of `stepSimulation`: the assertion on the
number of outstanding commands is evaluated and the processed counter is
incremented. -/
def afterConsume {α : Type} (s : Server α) : Server α :=
  { s.emit (Event.btAssert 191
      (decide (s.m_block.m_numClientCommands = s.m_block.m_numProcessedClientCommands + 1)))
    with m_block :=
      { s.m_block with
        m_numProcessedClientCommands := s.m_block.m_numProcessedClientCommands + 1 } }

/-- The assertions evaluated in a trace, in order: source line and value of the
condition. -/
def assertsOf (es : List Event) : List (Nat × Bool) :=
  es.filterMap fun e => match e with
    | Event.btAssert line cond => some (line, cond)
    | _ => none

/-- The reply types stored in a trace, in order. -/
def replyWritesOf (es : List Event) : List Int :=
  es.filterMap fun e => match e with
    | Event.writeReplyType tag => some tag
    | _ => none

/-- The arguments `stepSimulation` passes to `loadUrdf` for a command (lines 207-208). -/
def loadUrdfOfCommand {α : Type} (env : Collaborators α) (s : Server α)
    (c : SharedMemoryCommand α) : Server α × Bool :=
  loadUrdf env s c.m_urdfArguments.m_urdfFileName
    { x := env.zero, y := env.zero, z := env.zero }
    { x := env.zero, y := env.zero, z := env.zero, w := env.one }
    c.m_urdfArguments.m_useMultiBody c.m_urdfArguments.m_useFixedBase

/-- Successive calls of `stepSimulation`, one per element of `dts`. -/
def stepSimulationMany {α : Type} (env : Collaborators α) (s : Server α) :
    List α → Option (Server α)
  | [] => some s
  | dt :: dts => (stepSimulation env s dt).bind fun s1 => stepSimulationMany env s1 dts

/-- Whether a tag is one of the three case labels whose case stores a reply. -/
def isReplyingTag (t : CommandTags) (tag : Int) : Bool :=
  decide (tag = t.CMD_LOAD_URDF) || decide (tag = t.CMD_REQUEST_ACTUAL_STATE) ||
    decide (tag = t.CMD_STEP_FORWARD_SIMULATION)

/-- The assertions evaluated after the one of line 191 when a command with the
given tag is consumed and both pointers are non-null: none for the three
replying cases, the one of `releaseSharedMemory` for `CMD_SHUTDOWN`, the
failing one of the `default` case otherwise. -/
def assertsAfterConsume (t : CommandTags) (tag : Int) : List (Nat × Bool) :=
  if isReplyingTag t tag then []
  else if tag = t.CMD_SHUTDOWN then [(71, true)]
  else [(336, false)]

/-- The end of `stepSimulation` (lines 346-352) applied to the outcome of the
dispatch: a shutdown request sets `m_wantsShutdown` and releases the shared
memory. -/
def finishStep {α : Type} (r : Server α × Bool) : Option (Server α) :=
  if r.2 then releaseSharedMemory { r.1 with m_wantsShutdown := true } else some r.1

/-! ## Definitions used to state the reachability claims -/

/-- The destructor `PhysicsServer::~PhysicsServer` (lines 83-86). -/
def destructor {α : Type} (s : Server α) : Option (Server α) :=
  releaseSharedMemory s

/-- Modelled from the spec: a submission by the client (its code is not part of
the sources): the command is written to client slot 0 and the client-issued
counter is incremented by 1. -/
def clientSubmit {α : Type} (s : Server α) (cmd : SharedMemoryCommand α) : Server α :=
  { s with m_block :=
      { s.m_block with
        m_clientCommands := store s.m_block.m_clientCommands 0 cmd
        m_numClientCommands := s.m_block.m_numClientCommands + 1 } }

/-- The servers reachable from a successful `initPhysics` by calls of
`stepSimulation` and by client submissions made when no command is
outstanding. -/
inductive ReachableFromInit {α : Type} (env : Collaborators α) : Server α → Prop where
  | init (s0 s : Server α) : initPhysics env true s0 = some s → ReachableFromInit env s
  | step (s s1 : Server α) (dt : α) : ReachableFromInit env s →
      stepSimulation env s dt = some s1 → ReachableFromInit env s1
  | submit (s : Server α) (cmd : SharedMemoryCommand α) : ReachableFromInit env s →
      s.m_block.m_numClientCommands ≤ s.m_block.m_numProcessedClientCommands →
      ReachableFromInit env (clientSubmit s cmd)

/-- The servers reachable from the constructor by calls of `initPhysics` (with
either outcome of the allocation), `stepSimulation` and `releaseSharedMemory`,
and by any change of the shared block made by a client. -/
inductive ReachableFromConstructor {α : Type} (env : Collaborators α) : Server α → Prop where
  | construct (block : SharedMemoryExampleData α) (world : btMultiBodyDynamicsWorld α) :
      ReachableFromConstructor env (construct block world)
  | init (s s1 : Server α) (allocated : Bool) : ReachableFromConstructor env s →
      initPhysics env allocated s = some s1 → ReachableFromConstructor env s1
  | step (s s1 : Server α) (dt : α) : ReachableFromConstructor env s →
      stepSimulation env s dt = some s1 → ReachableFromConstructor env s1
  | release (s s1 : Server α) : ReachableFromConstructor env s →
      releaseSharedMemory s = some s1 → ReachableFromConstructor env s1
  | clientWrite (s : Server α) (block : SharedMemoryExampleData α) :
      ReachableFromConstructor env s → ReachableFromConstructor env { s with m_block := block }

/-- The collaborators with another function for the step of the world. -/
def withWorldStep {α : Type} (env : Collaborators α)
    (f : btMultiBodyDynamicsWorld α → α → btMultiBodyDynamicsWorld α) : Collaborators α :=
  { env with worldStepSimulation := f }

/-! ## Concrete values used to exercise the definitions -/

/-- A choice of enumerator values. -/
def sampleTags : CommandTags :=
  { CMD_LOAD_URDF := 0
    CMD_REQUEST_ACTUAL_STATE := 1
    CMD_STEP_FORWARD_SIMULATION := 2
    CMD_SHUTDOWN := 3
    CMD_URDF_LOADING_COMPLETED := 10
    CMD_URDF_LOADING_FAILED := 11
    CMD_ACTUAL_STATE_UPDATE_COMPLETED := 12
    CMD_STEP_FORWARD_SIMULATION_COMPLETED := 13
    SHARED_MEMORY_MAGIC_NUMBER := 64738
    caseLabelsDistinct := by decide }

/-- A link with two position variables and one velocity variable. -/
def sampleLinkA : btMultibodyLink Int :=
  { m_posVarCount := 2, m_dofCount := 1, m_jointPos := fun d => 100 + d, m_jointVel := fun d => 200 + d }

/-- A link with one position variable and two velocity variables. -/
def sampleLinkB : btMultibodyLink Int :=
  { m_posVarCount := 1, m_dofCount := 2, m_jointPos := fun d => 300 + d, m_jointVel := fun d => 400 + d }

/-- A multibody with the two sample links. -/
def sampleMultiBody : btMultiBody Int :=
  { m_basePos := { x := 1, y := 2, z := 3 }
    m_worldToBaseRot := { x := 4, y := 5, z := 6, w := 7 }
    m_baseVel := { x := 8, y := 9, z := 10 }
    m_baseOmega := { x := 11, y := 12, z := 13 }
    m_links := [sampleLinkA, sampleLinkB] }

/-- A world holding the given multibodies and one constraint. -/
def sampleWorld (mbs : List (btMultiBody Int)) : btMultiBodyDynamicsWorld Int :=
  { m_multiBodies := mbs, m_constraints := [{ m_jointFeedback := none }] }

/-- Collaborators over integer scalars: the importer accepts every file but
"missing.urdf", the conversion adds the sample multibody when asked for one, a
world step drops the constraints. -/
def sampleEnv : Collaborators Int :=
  { tags := sampleTags
    loadURDF := fun f => f != "missing.urdf"
    ConvertURDF2Bullet := fun _ _ _ w useMultiBody =>
      if useMultiBody then { w with m_multiBodies := w.m_multiBodies ++ [sampleMultiBody] } else w
    getBulletMultiBody := fun _ _ _ _ useMultiBody => useMultiBody
    worldStepSimulation := fun w _ => { w with m_constraints := [] }
    createEmptyDynamicsWorld := { m_multiBodies := [], m_constraints := [] }
    quatInverse := fun q => { x := -q.x, y := -q.y, z := -q.z, w := q.w }
    transformRotation := fun q => q
    zero := 0
    one := 1 }

/-- A command with the given tag and file name. -/
def sampleCommand (tag : Int) (file : String) : SharedMemoryCommand Int :=
  { m_type := tag
    m_urdfArguments := { m_urdfFileName := file, m_useMultiBody := true, m_useFixedBase := false }
    m_stepSimulationArguments := { m_deltaTimeInSeconds := 5 }
    m_sendActualStateArgs := { m_bodyUniqueId := -1, m_numDegreeOfFreedomQ := -1, m_numDegreeOfFreedomU := -1 } }

/-- A block with `issued` client commands of which `processed` are processed,
whose client slot holds the given command and whose reply slot holds tag 99. -/
def sampleBlock (issued processed : Int) (cmd : SharedMemoryCommand Int) :
    SharedMemoryExampleData Int :=
  { m_magicId := 64738
    m_clientCommands := fun _ => cmd
    m_serverCommands := fun _ => sampleCommand 99 ""
    m_numClientCommands := issued
    m_numProcessedClientCommands := processed
    m_numServerCommands := 4
    m_numProcessedServerCommands := 4
    m_actualStateQ := fun _ => 0
    m_actualStateQdot := fun _ => 0 }

/-- The sample block with the server-issued counter at the greatest `int`. -/
def sampleBlockMax (issued processed : Int) (cmd : SharedMemoryCommand Int) :
    SharedMemoryExampleData Int :=
  { sampleBlock issued processed cmd with m_numServerCommands := 2147483647 }

/-- A server with an allocated block whose server-issued counter is at the
greatest `int`. -/
def sampleServerMax (issued processed : Int) (cmd : SharedMemoryCommand Int)
    (mbs : List (btMultiBody Int)) : Server Int :=
  { m_sharedMemory := true
    m_testBlock1 := true
    m_block := sampleBlockMax issued processed cmd
    m_jointFeedbacks := []
    m_wantsShutdown := false
    m_dynamicsWorld := sampleWorld mbs
    events := [] }

/-- A server with an allocated block. -/
def sampleServer (issued processed : Int) (cmd : SharedMemoryCommand Int)
    (mbs : List (btMultiBody Int)) : Server Int :=
  { m_sharedMemory := true
    m_testBlock1 := true
    m_block := sampleBlock issued processed cmd
    m_jointFeedbacks := []
    m_wantsShutdown := false
    m_dynamicsWorld := sampleWorld mbs
    events := [] }

end PhysicsServer

/-!
# btSoftBody (src/BulletSoftBody/btSoftBody.h)

The inline code of the header: `Impulse`, `Body`, the constructor of `Joint`.
Scalars are a type `α` with the operations the code uses. A pointer is the
address it holds (`none` is null); the clusters and collision objects the
pointers refer to live in a `Heap`. A rigid body is a collision object, and
`btRigidBody::upcast` returns its argument or null. The methods of the rigid
body and the `cluster...Impulse` functions, whose code is outside the header,
are given functions.
-/

namespace btSoftBody

/-- The vector `-v` of `btVector3`: every component is negated. -/
def vneg {α : Type} [Neg α] (v : PhysicsServer.btVector3 α) : PhysicsServer.btVector3 α :=
  { x := -v.x, y := -v.y, z := -v.z }

/-- The vector after `v *= x` of `btVector3`: every component is multiplied by `x`. -/
def vscale {α : Type} [Mul α] (v : PhysicsServer.btVector3 α) (x : α) :
    PhysicsServer.btVector3 α :=
  { x := v.x * x, y := v.y * x, z := v.z * x }

/-- The vector `a + b` of `btVector3`: the components are added. -/
def vadd {α : Type} [Add α] (a b : PhysicsServer.btVector3 α) : PhysicsServer.btVector3 α :=
  { x := a.x + b.x, y := a.y + b.y, z := a.z + b.z }

/-- The vector `btVector3(0,0,0)`. -/
def vzero {α : Type} [Zero α] : PhysicsServer.btVector3 α :=
  { x := 0, y := 0, z := 0 }

/-- The matrix `btMatrix3x3(xx,xy,xz,yx,yy,yz,zx,zy,zz)`. -/
structure btMatrix3x3 (α : Type) where
  xx : α
  xy : α
  xz : α
  yx : α
  yy : α
  yz : α
  zx : α
  zy : α
  zz : α

/-- The transform `btTransform`: a basis and an origin. -/
structure btTransform (α : Type) where
  m_basis : btMatrix3x3 α
  m_origin : PhysicsServer.btVector3 α

/-- The matrix `btMatrix3x3(0,0,0,0,0,0,0,0,0)` of line 347. -/
def zeroMatrix {α : Type} [Zero α] : btMatrix3x3 α :=
  { xx := 0, xy := 0, xz := 0, yx := 0, yy := 0, yz := 0, zx := 0, zy := 0, zz := 0 }

/-- The transform `btTransform::getIdentity()`: the identity basis and the
origin `(0,0,0)`. -/
def getIdentity {α : Type} [Zero α] [One α] : btTransform α :=
  { m_basis := { xx := 1, xy := 0, xz := 0, yx := 0, yy := 1, yz := 0, zx := 0, zy := 0, zz := 1 }
    m_origin := vzero }

/-- The members of `Cluster` (lines 265-299) read by `Body` or written by the
`cluster...Impulse` functions, and the node pointers. -/
structure Cluster (α : Type) where
  m_nodes : List Nat
  m_framexform : btTransform α
  m_imass : α
  m_invwi : btMatrix3x3 α
  m_vimpulses : Fin 2 → PhysicsServer.btVector3 α
  m_dimpulses : Fin 2 → PhysicsServer.btVector3 α
  m_nvimpulses : Int
  m_ndimpulses : Int
  m_lv : PhysicsServer.btVector3 α
  m_av : PhysicsServer.btVector3 α

/-- The memory the pointers of a `Body` refer to: the clusters and the
collision objects (of a type `O`), by address. -/
structure Heap (α O : Type) where
  clusters : Nat → Cluster α
  objects : Nat → O

/-- The functions called by `Body` whose code is outside the header. -/
structure Collaborators (α O : Type) where
  /-- Whether `btRigidBody::upcast(colObj)` is non-null for the object. -/
  isRigidBody : O → Bool
  /-- The object after `activate()`. -/
  activate : O → O
  getInvInertiaTensorWorld : O → btMatrix3x3 α
  getInvMass : O → α
  getWorldTransform : O → btTransform α
  getLinearVelocity : O → PhysicsServer.btVector3 α
  getAngularVelocity : O → PhysicsServer.btVector3 α
  /-- The rigid body after `applyImpulse(impulse, rpos)`. -/
  applyImpulse : O → PhysicsServer.btVector3 α → PhysicsServer.btVector3 α → O
  /-- The rigid body after `applyTorqueImpulse(impulse)`. -/
  applyTorqueImpulse : O → PhysicsServer.btVector3 α → O
  /-- The rigid body after `applyCentralImpulse(impulse)`. -/
  applyCentralImpulse : O → PhysicsServer.btVector3 α → O
  /-- The cluster after `clusterVImpulse(cluster, rpos, impulse)`. -/
  clusterVImpulse : Cluster α → PhysicsServer.btVector3 α → PhysicsServer.btVector3 α → Cluster α
  /-- The cluster after `clusterDImpulse(cluster, rpos, impulse)`. -/
  clusterDImpulse : Cluster α → PhysicsServer.btVector3 α → PhysicsServer.btVector3 α → Cluster α
  /-- The cluster after `clusterVAImpulse(cluster, impulse)`. -/
  clusterVAImpulse : Cluster α → PhysicsServer.btVector3 α → Cluster α
  /-- The cluster after `clusterDAImpulse(cluster, impulse)`. -/
  clusterDAImpulse : Cluster α → PhysicsServer.btVector3 α → Cluster α
  /-- The cluster after `clusterDCImpulse(cluster, impulse)`. -/
  clusterDCImpulse : Cluster α → PhysicsServer.btVector3 α → Cluster α
  /-- The vector `btCross(a, b)`. -/
  btCross : PhysicsServer.btVector3 α → PhysicsServer.btVector3 α → PhysicsServer.btVector3 α

/-- The heap with the cluster at address `c` replaced. -/
def Heap.setCluster {α O : Type} (h : Heap α O) (c : Nat) (v : Cluster α) : Heap α O :=
  { h with clusters := PhysicsServer.store h.clusters c v }

/-- The heap with the object at address `r` replaced. -/
def Heap.setObject {α O : Type} (h : Heap α O) (r : Nat) (v : O) : Heap α O :=
  { h with objects := PhysicsServer.store h.objects r v }

/-- The struct `Impulse` (lines 301-322); the one-bit fields are booleans. -/
structure Impulse (α : Type) where
  m_velocity : PhysicsServer.btVector3 α
  m_drift : PhysicsServer.btVector3 α
  m_asVelocity : Bool
  m_asDrift : Bool

/-- The constructor `Impulse()` (line 307). -/
def Impulse.default {α : Type} [Zero α] : Impulse α :=
  { m_velocity := vzero, m_drift := vzero, m_asVelocity := false, m_asDrift := false }

/-- The operator `Impulse::operator-()` (lines 308-314). -/
def Impulse.neg {α : Type} [Neg α] (self : Impulse α) : Impulse α :=
  let i := self
  let i := { i with m_velocity := vneg i.m_velocity }
  let i := { i with m_drift := vneg i.m_drift }
  i

/-- The operator `Impulse::operator*(btScalar x)` (lines 315-321). -/
def Impulse.mul {α : Type} [Mul α] (self : Impulse α) (x : α) : Impulse α :=
  let i := self
  let i := { i with m_velocity := vscale i.m_velocity x }
  let i := { i with m_drift := vscale i.m_drift x }
  i

/-- The struct `Body` (lines 324-430): the three pointers. -/
structure Body where
  m_soft : Option Nat
  m_rigid : Option Nat
  m_collisionObject : Option Nat
deriving DecidableEq, Repr

/-- The constructor `Body()` (line 330). -/
def Body.default : Body :=
  { m_soft := none, m_rigid := none, m_collisionObject := none }

/-- The constructor `Body(Cluster* p)` (line 331). -/
def Body.ofCluster (p : Option Nat) : Body :=
  { m_soft := p, m_rigid := none, m_collisionObject := none }

/-- The function `btRigidBody::upcast` on a pointer to a collision object: the
pointer itself when the object is a rigid body, null otherwise; a null
argument, which the function would dereference, gives null here. -/
def upcast {α O : Type} (ops : Collaborators α O) (h : Heap α O) (colObj : Option Nat) :
    Option Nat :=
  match colObj with
  | some a => if ops.isRigidBody (h.objects a) then some a else none
  | none => none

/-- The constructor `Body(const btCollisionObject* colObj)` (lines 332-335). -/
def Body.ofCollisionObject {α O : Type} (ops : Collaborators α O) (h : Heap α O)
    (colObj : Option Nat) : Body :=
  let b : Body := { m_soft := none, m_rigid := none, m_collisionObject := colObj }
  { b with m_rigid := upcast ops h b.m_collisionObject }

/-- The method `Body::activate` (lines 337-344). -/
def Body.activate {α O : Type} (ops : Collaborators α O) (b : Body) (h : Heap α O) : Heap α O :=
  let h1 := match b.m_rigid with
    | some r => h.setObject r (ops.activate (h.objects r))
    | none => h
  match b.m_collisionObject with
  | some c => h1.setObject c (ops.activate (h1.objects c))
  | none => h1

/-- The method `Body::invWorldInertia` (lines 345-351). -/
def Body.invWorldInertia {α O : Type} [Zero α] (ops : Collaborators α O) (b : Body)
    (h : Heap α O) : btMatrix3x3 α :=
  match b.m_rigid with
  | some r => ops.getInvInertiaTensorWorld (h.objects r)
  | none =>
    match b.m_soft with
    | some c => (h.clusters c).m_invwi
    | none => zeroMatrix

/-- The method `Body::invMass` (lines 352-357). -/
def Body.invMass {α O : Type} [Zero α] (ops : Collaborators α O) (b : Body) (h : Heap α O) : α :=
  match b.m_rigid with
  | some r => ops.getInvMass (h.objects r)
  | none =>
    match b.m_soft with
    | some c => (h.clusters c).m_imass
    | none => 0

/-- The method `Body::xform` (lines 358-364). -/
def Body.xform {α O : Type} [Zero α] [One α] (ops : Collaborators α O) (b : Body)
    (h : Heap α O) : btTransform α :=
  match b.m_collisionObject with
  | some o => ops.getWorldTransform (h.objects o)
  | none =>
    match b.m_soft with
    | some c => (h.clusters c).m_framexform
    | none => getIdentity

/-- The method `Body::linearVelocity` (lines 365-370). -/
def Body.linearVelocity {α O : Type} [Zero α] (ops : Collaborators α O) (b : Body)
    (h : Heap α O) : PhysicsServer.btVector3 α :=
  match b.m_rigid with
  | some r => ops.getLinearVelocity (h.objects r)
  | none =>
    match b.m_soft with
    | some c => (h.clusters c).m_lv
    | none => vzero

/-- The method `Body::angularVelocity(rpos)` (lines 371-376). -/
def Body.angularVelocityAt {α O : Type} [Zero α] (ops : Collaborators α O) (b : Body)
    (h : Heap α O) (rpos : PhysicsServer.btVector3 α) : PhysicsServer.btVector3 α :=
  match b.m_rigid with
  | some r => ops.btCross (ops.getAngularVelocity (h.objects r)) rpos
  | none =>
    match b.m_soft with
    | some c => ops.btCross (h.clusters c).m_av rpos
    | none => vzero

/-- The method `Body::angularVelocity()` (lines 377-382). -/
def Body.angularVelocity {α O : Type} [Zero α] (ops : Collaborators α O) (b : Body)
    (h : Heap α O) : PhysicsServer.btVector3 α :=
  match b.m_rigid with
  | some r => ops.getAngularVelocity (h.objects r)
  | none =>
    match b.m_soft with
    | some c => (h.clusters c).m_av
    | none => vzero

/-- The method `Body::velocity` (lines 383-386). -/
def Body.velocity {α O : Type} [Zero α] [Add α] (ops : Collaborators α O) (b : Body)
    (h : Heap α O) (rpos : PhysicsServer.btVector3 α) : PhysicsServer.btVector3 α :=
  vadd (b.linearVelocity ops h) (b.angularVelocityAt ops h rpos)

/-- The method `Body::applyVImpulse` (lines 387-391). -/
def Body.applyVImpulse {α O : Type} (ops : Collaborators α O) (b : Body)
    (impulse rpos : PhysicsServer.btVector3 α) (h : Heap α O) : Heap α O :=
  let h1 := match b.m_rigid with
    | some r => h.setObject r (ops.applyImpulse (h.objects r) impulse rpos)
    | none => h
  match b.m_soft with
  | some c => h1.setCluster c (ops.clusterVImpulse (h1.clusters c) rpos impulse)
  | none => h1

/-- The method `Body::applyDImpulse` (lines 392-396). -/
def Body.applyDImpulse {α O : Type} (ops : Collaborators α O) (b : Body)
    (impulse rpos : PhysicsServer.btVector3 α) (h : Heap α O) : Heap α O :=
  let h1 := match b.m_rigid with
    | some r => h.setObject r (ops.applyImpulse (h.objects r) impulse rpos)
    | none => h
  match b.m_soft with
  | some c => h1.setCluster c (ops.clusterDImpulse (h1.clusters c) rpos impulse)
  | none => h1

/-- The method `Body::applyImpulse` (lines 397-409). -/
def Body.applyImpulse {α O : Type} (ops : Collaborators α O) (b : Body) (impulse : Impulse α)
    (rpos : PhysicsServer.btVector3 α) (h : Heap α O) : Heap α O :=
  let h1 := if impulse.m_asVelocity then b.applyVImpulse ops impulse.m_velocity rpos h else h
  if impulse.m_asDrift then b.applyDImpulse ops impulse.m_drift rpos h1 else h1

/-- The method `Body::applyVAImpulse` (lines 410-414). -/
def Body.applyVAImpulse {α O : Type} (ops : Collaborators α O) (b : Body)
    (impulse : PhysicsServer.btVector3 α) (h : Heap α O) : Heap α O :=
  let h1 := match b.m_rigid with
    | some r => h.setObject r (ops.applyTorqueImpulse (h.objects r) impulse)
    | none => h
  match b.m_soft with
  | some c => h1.setCluster c (ops.clusterVAImpulse (h1.clusters c) impulse)
  | none => h1

/-- The method `Body::applyDAImpulse` (lines 415-419). -/
def Body.applyDAImpulse {α O : Type} (ops : Collaborators α O) (b : Body)
    (impulse : PhysicsServer.btVector3 α) (h : Heap α O) : Heap α O :=
  let h1 := match b.m_rigid with
    | some r => h.setObject r (ops.applyTorqueImpulse (h.objects r) impulse)
    | none => h
  match b.m_soft with
  | some c => h1.setCluster c (ops.clusterDAImpulse (h1.clusters c) impulse)
  | none => h1

/-- The method `Body::applyAImpulse` (lines 420-424). -/
def Body.applyAImpulse {α O : Type} (ops : Collaborators α O) (b : Body) (impulse : Impulse α)
    (h : Heap α O) : Heap α O :=
  let h1 := if impulse.m_asVelocity then b.applyVAImpulse ops impulse.m_velocity h else h
  if impulse.m_asDrift then b.applyDAImpulse ops impulse.m_drift h1 else h1

/-- The method `Body::applyDCImpulse` (lines 425-429). -/
def Body.applyDCImpulse {α O : Type} (ops : Collaborators α O) (b : Body)
    (impulse : PhysicsServer.btVector3 α) (h : Heap α O) : Heap α O :=
  let h1 := match b.m_rigid with
    | some r => h.setObject r (ops.applyCentralImpulse (h.objects r) impulse)
    | none => h
  match b.m_soft with
  | some c => h1.setCluster c (ops.clusterDCImpulse (h1.clusters c) impulse)
  | none => h1

/-- The endpoint kinds of a `Body`. -/
inductive BodyKind where
  | cluster
  | rigidBody
  | none
deriving DecidableEq, Repr

/-- Whether a body is of a kind: a cluster when only `m_soft` is set, a rigid
body (collision object) when `m_soft` is null and one of the other two
pointers is set, none when the three pointers are null. -/
def Body.isKind (b : Body) : BodyKind → Bool
  | BodyKind.cluster => b.m_soft.isSome && b.m_rigid.isNone && b.m_collisionObject.isNone
  | BodyKind.rigidBody => b.m_soft.isNone && (b.m_rigid.isSome || b.m_collisionObject.isSome)
  | BodyKind.none => b.m_soft.isNone && b.m_rigid.isNone && b.m_collisionObject.isNone

/-- The members of `CJoint` (lines 498-509) and of its base `Joint` (lines
446-454) the life counter involves. -/
structure CJoint where
  m_delete : Bool
  m_life : Int
  m_maxlife : Int
deriving DecidableEq, Repr

/-- The implicit constructor of `CJoint`: the constructor `Joint()` (line 456)
sets `m_delete` to false; `m_life` and `m_maxlife` are not written and hold
whatever the memory held. -/
def CJoint.construct (life maxlife : Int) : CJoint :=
  { m_delete := false, m_life := life, m_maxlife := maxlife }

/-- Modelled from the spec: `CJoint::Prepare(dt, iterations)`, whose code is in
btSoftBody.cpp (not part of the sources). The life counter is incremented on
every Prepare, and the joint is flagged for deletion strictly when the life
exceeds the configured maximum life. -/
def CJoint.Prepare {α : Type} (j : CJoint) (_dt : α) (_iterations : Int) : CJoint :=
  let life := j.m_life + 1
  { j with m_life := life, m_delete := decide (life > j.m_maxlife) }

/-- Successive calls of `Prepare`, one per pair of arguments. -/
def CJoint.PrepareMany {α : Type} (j : CJoint) : List (α × Int) → CJoint
  | [] => j
  | a :: rest => CJoint.PrepareMany (j.Prepare a.1 a.2) rest

/-- The node pointers of a `Face` (line 203), as node indices. -/
structure Face where
  m_n : Fin 3 → Nat

/-- The node pointers of a `Tetra` (line 211), as node indices. -/
structure Tetra where
  m_n : Fin 4 → Nat

/-- The arrays `m_faces` and `m_tetras` of the soft body (lines 582-583). -/
structure Mesh where
  m_faces : List Face
  m_tetras : List Tetra

/-- Modelled from the spec: the node lists of the clusters made by
`generateClusters(0)`, whose code is in btSoftBody.cpp (not part of the
sources): one cluster per volume primitive, holding the 4 particles of its
tetra, or one per surface primitive for a surface-only body, holding the 3
particles of its triangle. -/
def generateClustersZero (body : Mesh) : List (List Nat) :=
  if body.m_tetras.length > 0 then
    body.m_tetras.map fun t => (List.finRange 4).map t.m_n
  else
    body.m_faces.map fun f => (List.finRange 3).map f.m_n

/-! ## Concrete values used to exercise the soft-body definitions -/

/-- Functions over integer scalars and integer objects. -/
def sampleOps : Collaborators Int Int :=
  { isRigidBody := fun o => decide (o > 0)
    activate := fun o => o
    getInvInertiaTensorWorld := fun o =>
      { xx := o, xy := 0, xz := 0, yx := 0, yy := o, yz := 0, zx := 0, zy := 0, zz := o }
    getInvMass := fun o => o
    getWorldTransform := fun o =>
      { m_basis := { xx := 1, xy := 0, xz := 0, yx := 0, yy := 1, yz := 0, zx := 0, zy := 0, zz := 1 }
        m_origin := { x := o, y := o, z := o } }
    getLinearVelocity := fun o => { x := o, y := 0, z := 0 }
    getAngularVelocity := fun o => { x := 0, y := o, z := 0 }
    applyImpulse := fun o i _ => o + i.x
    applyTorqueImpulse := fun o i => o + i.y
    applyCentralImpulse := fun o i => o + i.z
    clusterVImpulse := fun c _ i => { c with m_lv := vadd c.m_lv i }
    clusterDImpulse := fun c _ i => { c with m_av := vadd c.m_av i }
    clusterVAImpulse := fun c i => { c with m_lv := vadd c.m_lv i }
    clusterDAImpulse := fun c i => { c with m_av := vadd c.m_av i }
    clusterDCImpulse := fun c i => { c with m_lv := vadd c.m_lv i }
    btCross := fun a b =>
      { x := a.y * b.z - a.z * b.y, y := a.z * b.x - a.x * b.z, z := a.x * b.y - a.y * b.x } }

/-- A cluster at rest. -/
def sampleCluster : Cluster Int :=
  { m_nodes := [0, 1, 2]
    m_framexform := getIdentity
    m_imass := 2
    m_invwi := zeroMatrix
    m_vimpulses := fun _ => vzero
    m_dimpulses := fun _ => vzero
    m_nvimpulses := 0
    m_ndimpulses := 0
    m_lv := vzero
    m_av := vzero }

/-- A heap whose clusters are the sample cluster and whose object at address
`a` is the integer `a`. -/
def sampleHeap : Heap Int Int :=
  { clusters := fun _ => sampleCluster, objects := fun a => (a : Int) }

/-- An impulse with the velocity flag set. -/
def sampleImpulse : Impulse Int :=
  { m_velocity := { x := 1, y := 2, z := 3 }
    m_drift := { x := 4, y := 5, z := 6 }
    m_asVelocity := true
    m_asDrift := false }

/-- A mesh with two tetrahedra and one face. -/
def sampleVolume : Mesh :=
  { m_faces := [{ m_n := fun i => 10 + i.val }]
    m_tetras := [{ m_n := fun i => i.val }, { m_n := fun i => 4 + i.val }] }

/-- A mesh with two faces and no tetrahedron. -/
def sampleSurface : Mesh :=
  { m_faces := [{ m_n := fun i => i.val }, { m_n := fun i => 1 + i.val }]
    m_tetras := [] }

end btSoftBody

namespace PhysicsServer

/-! ## Lemmas on the increment of an `int` -/

/-- Below the greatest `int` the increment adds 1. -/
theorem incrementInt_of_lt (x : Int) (h1 : -2147483648 ≤ x) (h2 : x < 2147483647) :
    incrementInt x = x + 1 := by
  unfold incrementInt
  omega

/-- At the greatest `int` the increment gives the least `int`. -/
theorem incrementInt_max : incrementInt 2147483647 = -2147483648 := by
  unfold incrementInt
  omega

/-- The increment is an `int` value. -/
theorem incrementInt_range (x : Int) :
    -2147483648 ≤ incrementInt x ∧ incrementInt x ≤ 2147483647 := by
  unfold incrementInt
  omega

/-- The increment of an `int` value is at most that value plus 1. -/
theorem incrementInt_le (x : Int) (h1 : -2147483648 ≤ x) : incrementInt x ≤ x + 1 := by
  unfold incrementInt
  omega

/-! ## Lemmas on the dispatch -/

theorem tags_load_ne_request (t : CommandTags) : t.CMD_LOAD_URDF ≠ t.CMD_REQUEST_ACTUAL_STATE := by
  have h := t.caseLabelsDistinct
  simp only [List.nodup_cons, List.mem_cons, List.mem_singleton, not_or] at h
  exact h.1.1

theorem tags_load_ne_step (t : CommandTags) : t.CMD_LOAD_URDF ≠ t.CMD_STEP_FORWARD_SIMULATION := by
  have h := t.caseLabelsDistinct
  simp only [List.nodup_cons, List.mem_cons, List.mem_singleton, not_or] at h
  exact h.1.2.1

theorem tags_load_ne_shutdown (t : CommandTags) : t.CMD_LOAD_URDF ≠ t.CMD_SHUTDOWN := by
  have h := t.caseLabelsDistinct
  simp only [List.nodup_cons, List.mem_cons, List.mem_singleton, not_or] at h
  exact h.1.2.2.1

theorem tags_request_ne_step (t : CommandTags) :
    t.CMD_REQUEST_ACTUAL_STATE ≠ t.CMD_STEP_FORWARD_SIMULATION := by
  have h := t.caseLabelsDistinct
  simp only [List.nodup_cons, List.mem_cons, List.mem_singleton, not_or] at h
  exact h.2.1.1

theorem tags_request_ne_shutdown (t : CommandTags) :
    t.CMD_REQUEST_ACTUAL_STATE ≠ t.CMD_SHUTDOWN := by
  have h := t.caseLabelsDistinct
  simp only [List.nodup_cons, List.mem_cons, List.mem_singleton, not_or] at h
  exact h.2.1.2.1

theorem tags_step_ne_shutdown (t : CommandTags) :
    t.CMD_STEP_FORWARD_SIMULATION ≠ t.CMD_SHUTDOWN := by
  have h := t.caseLabelsDistinct
  simp only [List.nodup_cons, List.mem_cons, List.mem_singleton, not_or] at h
  exact h.2.2.1.1

/-- The dispatch on a `CMD_STEP_FORWARD_SIMULATION` command. -/
theorem processCommand_step {α : Type} (env : Collaborators α) (s : Server α)
    (c : SharedMemoryCommand α) (h : c.m_type = env.tags.CMD_STEP_FORWARD_SIMULATION) :
    processCommand env s c =
      (incNumServerCommands
        (setReplyType
          { s with m_dynamicsWorld :=
              (env.worldStepSimulation s.m_dynamicsWorld
                c.m_stepSimulationArguments.m_deltaTimeInSeconds) }
          env.tags.CMD_STEP_FORWARD_SIMULATION_COMPLETED), false) := by
  unfold processCommand
  rw [h, if_neg (tags_load_ne_step env.tags).symm, if_neg (tags_request_ne_step env.tags).symm,
    if_pos rfl]

/-- The step when a command is outstanding: the processed counter is
incremented, the command of client slot 0 is dispatched, and a shutdown
request releases the shared memory. -/
theorem stepSimulation_outstanding {α : Type} (env : Collaborators α) (s : Server α) (dt : α)
    (hb : s.m_testBlock1 = true)
    (hc : s.m_block.m_numClientCommands > s.m_block.m_numProcessedClientCommands) :
    stepSimulation env s dt =
      let r := processCommand env
        { s.emit (Event.btAssert 191
            (decide (s.m_block.m_numClientCommands = s.m_block.m_numProcessedClientCommands + 1)))
          with m_block :=
            { s.m_block with
              m_numProcessedClientCommands := s.m_block.m_numProcessedClientCommands + 1 } }
        (s.m_block.m_clientCommands 0)
      if r.2 then releaseSharedMemory { r.1 with m_wantsShutdown := true } else some r.1 := by
  unfold stepSimulation
  simp only [hb, if_true, hc, Server.emit]

/-! ## Lemmas on the packing loops -/

@[simp] theorem store_apply {β : Type} (a : Nat → β) (i : Nat) (v : β) (j : Nat) :
    store a i v j = if j = i then v else a j := rfl

/-- The loop of line 268 in closed form. -/
theorem posLoop {α : Type} (lk : btMultibodyLink α) (s : Server α) (q n : Nat) :
    (List.range n).foldl (packJointPos lk) (s, q) = (qWrites s q n lk.m_jointPos, q + n) := by
  induction n with
  | zero =>
    obtain ⟨a, b, ⟨b1, b2, b3, b4, b5, b6, b7, b8, b9⟩, d, e, f, g⟩ := s
    simp only [List.range_zero, List.foldl_nil, qWrites, List.map_nil, List.append_nil, Nat.add_zero]
    congr 3
    funext j
    rw [if_neg (by omega)]
  | succ n ih =>
    rw [List.range_succ, List.foldl_append, ih]
    simp only [List.foldl_cons, List.foldl_nil, packJointPos, writeQ, Server.emit, qWrites]
    refine Prod.ext ?_ (by simp; omega)
    simp only [List.map_append, List.map_cons, List.map_nil, List.append_assoc]
    congr 1
    · congr 1
      funext j
      rw [store_apply]
      by_cases h1 : j = q + n
      · subst h1; simp
      · simp only [h1, if_false]
        by_cases h2 : q ≤ j ∧ j < q + n
        · rw [if_pos h2, if_pos ⟨h2.1, by omega⟩]
        · rw [if_neg h2, if_neg (by omega)]
    · simp [List.range_succ]

/-- The loop of line 272 in closed form. -/
theorem velLoop {α : Type} (lk : btMultibodyLink α) (s : Server α) (u n : Nat) :
    (List.range n).foldl (packJointVel lk) (s, u) = (uWrites s u n lk.m_jointVel, u + n) := by
  induction n with
  | zero =>
    obtain ⟨a, b, ⟨b1, b2, b3, b4, b5, b6, b7, b8, b9⟩, d, e, f, g⟩ := s
    simp only [List.range_zero, List.foldl_nil, uWrites, List.map_nil, List.append_nil, Nat.add_zero]
    congr 3
    funext j
    rw [if_neg (by omega)]
  | succ n ih =>
    rw [List.range_succ, List.foldl_append, ih]
    simp only [List.foldl_cons, List.foldl_nil, packJointVel, writeQdot, Server.emit, uWrites]
    refine Prod.ext ?_ (by simp; omega)
    simp only [List.map_append, List.map_cons, List.map_nil, List.append_assoc]
    congr 1
    · congr 1
      funext j
      rw [store_apply]
      by_cases h1 : j = u + n
      · subst h1; simp
      · simp only [h1, if_false]
        by_cases h2 : u ≤ j ∧ j < u + n
        · rw [if_pos h2, if_pos ⟨h2.1, by omega⟩]
        · rw [if_neg h2, if_neg (by omega)]
    · simp [List.range_succ]

/-- One pass of the loop over the links in closed form. -/
theorem packLink_eq {α : Type} (s : Server α) (q u : Nat) (lk : btMultibodyLink α) :
    packLink (s, q, u) lk =
      (uWrites (qWrites s q lk.m_posVarCount lk.m_jointPos) u lk.m_dofCount lk.m_jointVel,
        q + lk.m_posVarCount, u + lk.m_dofCount) := by
  simp only [packLink, posLoop, velLoop]

theorem qIndices_append (a b : List Event) : qIndices (a ++ b) = qIndices a ++ qIndices b := by
  simp [qIndices, List.filterMap_append]

theorem uIndices_append (a b : List Event) : uIndices (a ++ b) = uIndices a ++ uIndices b := by
  simp [uIndices, List.filterMap_append]

theorem qIndices_writeQ (q n : Nat) :
    qIndices ((List.range n).map fun d => Event.writeQ (q + d)) = List.range' q n := by
  induction n with
  | zero => simp [qIndices]
  | succ n ih =>
    rw [List.range_succ, List.map_append, qIndices_append, ih, List.range'_concat]
    simp [qIndices]

theorem uIndices_writeQdot (u n : Nat) :
    uIndices ((List.range n).map fun d => Event.writeQdot (u + d)) = List.range' u n := by
  induction n with
  | zero => simp [uIndices]
  | succ n ih =>
    rw [List.range_succ, List.map_append, uIndices_append, ih, List.range'_concat]
    simp [uIndices]

theorem qIndices_writeQdot (u n : Nat) :
    qIndices ((List.range n).map fun d => Event.writeQdot (u + d)) = [] := by
  induction n with
  | zero => simp [qIndices]
  | succ n ih =>
    rw [List.range_succ, List.map_append, qIndices_append, ih]
    simp [qIndices]

theorem uIndices_writeQ (q n : Nat) :
    uIndices ((List.range n).map fun d => Event.writeQ (q + d)) = [] := by
  induction n with
  | zero => simp [uIndices]
  | succ n ih =>
    rw [List.range_succ, List.map_append, uIndices_append, ih]
    simp [uIndices]

/-- The effect of the loop over the links (lines 266-277) started with the
counters `q` and `u`: the final counters, the fields left alone, the array
cells below the start, and the indices stored to. -/
theorem packLinks_spec {α : Type} (links : List (btMultibodyLink α)) :
    ∀ (s : Server α) (q u : Nat),
      (links.foldl packLink (s, q, u)).2.1 = q + sumPosVarCount links ∧
      (links.foldl packLink (s, q, u)).2.2 = u + sumDofCount links ∧
      withArraysOf s (links.foldl packLink (s, q, u)).1 = (links.foldl packLink (s, q, u)).1 ∧
      (∀ j, j < q →
        (links.foldl packLink (s, q, u)).1.m_block.m_actualStateQ j = s.m_block.m_actualStateQ j) ∧
      (∀ j, j < u →
        (links.foldl packLink (s, q, u)).1.m_block.m_actualStateQdot j =
          s.m_block.m_actualStateQdot j) ∧
      qIndices (links.foldl packLink (s, q, u)).1.events =
        qIndices s.events ++ List.range' q (sumPosVarCount links) ∧
      uIndices (links.foldl packLink (s, q, u)).1.events =
        uIndices s.events ++ List.range' u (sumDofCount links) := by
  induction links with
  | nil =>
    intro s q u
    simp [sumPosVarCount, sumDofCount, withArraysOf]
  | cons lk rest ih =>
    intro s q u
    rw [List.foldl_cons, packLink_eq]
    obtain ⟨h1, h2, h3, h4, h5, h6, h7⟩ :=
      ih (uWrites (qWrites s q lk.m_posVarCount lk.m_jointPos) u lk.m_dofCount lk.m_jointVel)
        (q + lk.m_posVarCount) (u + lk.m_dofCount)
    refine ⟨?_, ?_, ?_, ?_, ?_, ?_, ?_⟩
    · rw [h1]; simp [sumPosVarCount]; omega
    · rw [h2]; simp [sumDofCount]; omega
    · exact h3
    · intro j hj
      rw [h4 j (by omega)]
      simp only [uWrites, qWrites]
      rw [if_neg (by omega)]
    · intro j hj
      rw [h5 j (by omega)]
      simp only [uWrites, qWrites]
      rw [if_neg (by omega)]
    · rw [h6]
      simp only [uWrites, qWrites, qIndices_append, qIndices_writeQ, qIndices_writeQdot,
        List.append_nil, List.append_assoc]
      congr 1
      have : sumPosVarCount (lk :: rest) = sumPosVarCount rest + lk.m_posVarCount := by
        simp [sumPosVarCount]; omega
      rw [this, ← List.range'_append_1]
    · rw [h7]
      simp only [uWrites, qWrites, uIndices_append, uIndices_writeQ, uIndices_writeQdot,
        List.append_nil, List.append_assoc, List.nil_append]
      congr 1
      have : sumDofCount (lk :: rest) = sumDofCount rest + lk.m_dofCount := by
        simp [sumDofCount]; omega
      rw [this, ← List.range'_append_1]

/-- After the loop over the links, the position variable `d` of link `l` is in
cell `q + (sum of the counts of the links before l) + d` of `m_actualStateQ`. -/
theorem packLinks_Q_value {α : Type} (links : List (btMultibodyLink α)) :
    ∀ (s : Server α) (q u l : Nat) (lk : btMultibodyLink α), links[l]? = some lk →
      ∀ d, d < lk.m_posVarCount →
        (links.foldl packLink (s, q, u)).1.m_block.m_actualStateQ
          (q + sumPosVarCount (links.take l) + d) = lk.m_jointPos d := by
  induction links with
  | nil => intro s q u l lk h; simp at h
  | cons hd rest ih =>
    intro s q u l lk h d hd1
    rw [List.foldl_cons, packLink_eq]
    cases l with
    | zero =>
      simp only [List.getElem?_cons_zero, Option.some.injEq] at h
      subst h
      rw [(packLinks_spec rest _ _ _).2.2.2.1 _ (by simp [sumPosVarCount]; omega)]
      simp only [uWrites, qWrites, List.take_zero, sumPosVarCount, List.map_nil, List.sum_nil,
        Nat.add_zero]
      rw [if_pos ⟨by omega, by omega⟩]
      congr 1
      omega
    | succ l =>
      simp only [List.getElem?_cons_succ] at h
      have h0 := ih (uWrites (qWrites s q hd.m_posVarCount hd.m_jointPos) u hd.m_dofCount
        hd.m_jointVel) (q + hd.m_posVarCount) (u + hd.m_dofCount) l lk h d hd1
      have e : q + sumPosVarCount (List.take (l + 1) (hd :: rest)) + d =
          q + hd.m_posVarCount + sumPosVarCount (List.take l rest) + d := by
        simp [sumPosVarCount]; omega
      rw [e]
      exact h0

/-- After the loop over the links, the velocity variable `d` of link `l` is in
cell `u + (sum of the counts of the links before l) + d` of `m_actualStateQdot`. -/
theorem packLinks_U_value {α : Type} (links : List (btMultibodyLink α)) :
    ∀ (s : Server α) (q u l : Nat) (lk : btMultibodyLink α), links[l]? = some lk →
      ∀ d, d < lk.m_dofCount →
        (links.foldl packLink (s, q, u)).1.m_block.m_actualStateQdot
          (u + sumDofCount (links.take l) + d) = lk.m_jointVel d := by
  induction links with
  | nil => intro s q u l lk h; simp at h
  | cons hd rest ih =>
    intro s q u l lk h d hd1
    rw [List.foldl_cons, packLink_eq]
    cases l with
    | zero =>
      simp only [List.getElem?_cons_zero, Option.some.injEq] at h
      subst h
      rw [(packLinks_spec rest _ _ _).2.2.2.2.1 _ (by simp [sumDofCount]; omega)]
      simp only [uWrites, List.take_zero, sumDofCount, List.map_nil, List.sum_nil,
        Nat.add_zero]
      rw [if_pos ⟨by omega, by omega⟩]
      congr 1
      omega
    | succ l =>
      simp only [List.getElem?_cons_succ] at h
      have h0 := ih (uWrites (qWrites s q hd.m_posVarCount hd.m_jointPos) u hd.m_dofCount
        hd.m_jointVel) (q + hd.m_posVarCount) (u + hd.m_dofCount) l lk h d hd1
      have e : u + sumDofCount (List.take (l + 1) (hd :: rest)) + d =
          u + hd.m_dofCount + sumDofCount (List.take l rest) + d := by
        simp [sumDofCount]; omega
      rw [e]
      exact h0

/-- The three stages of `sendActualState`. -/
theorem sendActualState_eq {α : Type} (env : Collaborators α) (s : Server α) (mb : btMultiBody α) :
    sendActualState env s mb =
      storeCounts (mb.m_links.foldl packLink (packBase env s mb, 7, 6)) := rfl

/-- The reply slot after `sendActualState`. -/
theorem sendActualState_reply {α : Type} (env : Collaborators α) (s : Server α)
    (mb : btMultiBody α) :
    (sendActualState env s mb).m_block.m_serverCommands 0 =
      { s.m_block.m_serverCommands 0 with
        m_type := env.tags.CMD_ACTUAL_STATE_UPDATE_COMPLETED
        m_sendActualStateArgs :=
          { m_bodyUniqueId := 0
            m_numDegreeOfFreedomQ := ((7 + sumPosVarCount mb.m_links : Nat) : Int)
            m_numDegreeOfFreedomU := ((6 + sumDofCount mb.m_links : Nat) : Int) } } := by
  rw [sendActualState_eq]
  obtain ⟨h1, h2, h3, -⟩ := packLinks_spec mb.m_links (packBase env s mb) 7 6
  unfold storeCounts
  rw [h1, h2, ← h3]
  simp [withArraysOf, setReplyStateArgs, packBase, setReplyType, writeQ, writeQdot, Server.emit]

/-- The fields `sendActualState` leaves alone. -/
theorem sendActualState_frame {α : Type} (env : Collaborators α) (s : Server α)
    (mb : btMultiBody α) :
    (sendActualState env s mb).m_block.m_numServerCommands = s.m_block.m_numServerCommands ∧
    (sendActualState env s mb).m_block.m_numClientCommands = s.m_block.m_numClientCommands ∧
    (sendActualState env s mb).m_block.m_numProcessedClientCommands =
      s.m_block.m_numProcessedClientCommands ∧
    (sendActualState env s mb).m_block.m_numProcessedServerCommands =
      s.m_block.m_numProcessedServerCommands ∧
    (sendActualState env s mb).m_block.m_clientCommands = s.m_block.m_clientCommands ∧
    (sendActualState env s mb).m_block.m_magicId = s.m_block.m_magicId ∧
    (sendActualState env s mb).m_dynamicsWorld = s.m_dynamicsWorld ∧
    (sendActualState env s mb).m_wantsShutdown = s.m_wantsShutdown ∧
    (sendActualState env s mb).m_sharedMemory = s.m_sharedMemory ∧
    (sendActualState env s mb).m_testBlock1 = s.m_testBlock1 ∧
    (sendActualState env s mb).m_jointFeedbacks = s.m_jointFeedbacks := by
  rw [sendActualState_eq]
  obtain ⟨-, -, h3, -⟩ := packLinks_spec mb.m_links (packBase env s mb) 7 6
  unfold storeCounts
  rw [← h3]
  simp [withArraysOf, setReplyStateArgs, packBase, setReplyType, writeQ, writeQdot, Server.emit]

/-- The two arrays after `sendActualState`: the base cells, the cells of the
links, and the indices stored to. -/
theorem sendActualState_arrays {α : Type} (env : Collaborators α) (s : Server α)
    (mb : btMultiBody α) :
    (sendActualState env s mb).m_block.m_actualStateQ 0 = mb.m_basePos.x ∧
    (sendActualState env s mb).m_block.m_actualStateQ 1 = mb.m_basePos.y ∧
    (sendActualState env s mb).m_block.m_actualStateQ 2 = mb.m_basePos.z ∧
    (sendActualState env s mb).m_block.m_actualStateQ 3 =
      (env.transformRotation (env.quatInverse mb.m_worldToBaseRot)).x ∧
    (sendActualState env s mb).m_block.m_actualStateQ 4 =
      (env.transformRotation (env.quatInverse mb.m_worldToBaseRot)).y ∧
    (sendActualState env s mb).m_block.m_actualStateQ 5 =
      (env.transformRotation (env.quatInverse mb.m_worldToBaseRot)).z ∧
    (sendActualState env s mb).m_block.m_actualStateQ 6 =
      (env.transformRotation (env.quatInverse mb.m_worldToBaseRot)).w ∧
    (sendActualState env s mb).m_block.m_actualStateQdot 0 = mb.m_baseVel.x ∧
    (sendActualState env s mb).m_block.m_actualStateQdot 1 = mb.m_baseVel.y ∧
    (sendActualState env s mb).m_block.m_actualStateQdot 2 = mb.m_baseVel.z ∧
    (sendActualState env s mb).m_block.m_actualStateQdot 3 = mb.m_baseOmega.x ∧
    (sendActualState env s mb).m_block.m_actualStateQdot 4 = mb.m_baseOmega.y ∧
    (sendActualState env s mb).m_block.m_actualStateQdot 5 = mb.m_baseOmega.z ∧
    (∀ (l : Nat) (lk : btMultibodyLink α), mb.m_links[l]? = some lk →
      ∀ d, d < lk.m_posVarCount →
        (sendActualState env s mb).m_block.m_actualStateQ
          (7 + sumPosVarCount (mb.m_links.take l) + d) = lk.m_jointPos d) ∧
    (∀ (l : Nat) (lk : btMultibodyLink α), mb.m_links[l]? = some lk →
      ∀ d, d < lk.m_dofCount →
        (sendActualState env s mb).m_block.m_actualStateQdot
          (6 + sumDofCount (mb.m_links.take l) + d) = lk.m_jointVel d) ∧
    qIndices (sendActualState env s mb).events =
      qIndices s.events ++ List.range (7 + sumPosVarCount mb.m_links) ∧
    uIndices (sendActualState env s mb).events =
      uIndices s.events ++ List.range (6 + sumDofCount mb.m_links) := by
  have hq : ∀ j, (sendActualState env s mb).m_block.m_actualStateQ j =
      (mb.m_links.foldl packLink (packBase env s mb, 7, 6)).1.m_block.m_actualStateQ j := by
    intro j; rfl
  have hu : ∀ j, (sendActualState env s mb).m_block.m_actualStateQdot j =
      (mb.m_links.foldl packLink (packBase env s mb, 7, 6)).1.m_block.m_actualStateQdot j := by
    intro j; rfl
  have he : (sendActualState env s mb).events =
      (mb.m_links.foldl packLink (packBase env s mb, 7, 6)).1.events := rfl
  obtain ⟨-, -, -, h4, h5, h6, h7⟩ := packLinks_spec mb.m_links (packBase env s mb) 7 6
  have r7 : ([0, 1, 2, 3, 4, 5, 6] : List Nat) = List.range' 0 7 := by decide
  have r6 : ([0, 1, 2, 3, 4, 5] : List Nat) = List.range' 0 6 := by decide
  refine ⟨?_, ?_, ?_, ?_, ?_, ?_, ?_, ?_, ?_, ?_, ?_, ?_, ?_, ?_, ?_, ?_, ?_⟩
  · rw [hq, h4 0 (by omega)]; simp [packBase, writeQ, writeQdot, Server.emit]
  · rw [hq, h4 1 (by omega)]; simp [packBase, writeQ, writeQdot, Server.emit]
  · rw [hq, h4 2 (by omega)]; simp [packBase, writeQ, writeQdot, Server.emit]
  · rw [hq, h4 3 (by omega)]; simp [packBase, writeQ, writeQdot, Server.emit]
  · rw [hq, h4 4 (by omega)]; simp [packBase, writeQ, writeQdot, Server.emit]
  · rw [hq, h4 5 (by omega)]; simp [packBase, writeQ, writeQdot, Server.emit]
  · rw [hq, h4 6 (by omega)]; simp [packBase, writeQ, writeQdot, Server.emit]
  · rw [hu, h5 0 (by omega)]; simp [packBase, writeQ, writeQdot, Server.emit]
  · rw [hu, h5 1 (by omega)]; simp [packBase, writeQ, writeQdot, Server.emit]
  · rw [hu, h5 2 (by omega)]; simp [packBase, writeQ, writeQdot, Server.emit]
  · rw [hu, h5 3 (by omega)]; simp [packBase, writeQ, writeQdot, Server.emit]
  · rw [hu, h5 4 (by omega)]; simp [packBase, writeQ, writeQdot, Server.emit]
  · rw [hu, h5 5 (by omega)]; simp [packBase, writeQ, writeQdot, Server.emit]
  · intro l lk hl d hd
    rw [hq]
    exact packLinks_Q_value mb.m_links _ 7 6 l lk hl d hd
  · intro l lk hl d hd
    rw [hu]
    exact packLinks_U_value mb.m_links _ 7 6 l lk hl d hd
  · rw [he, h6]
    have hb : qIndices (packBase env s mb).events = qIndices s.events ++ [0, 1, 2, 3, 4, 5, 6] := by
      simp [packBase, writeQ, writeQdot, setReplyType, setReplyStateArgs, Server.emit, qIndices,
        List.filterMap_append]
    have e : List.range' 0 7 ++ List.range' 7 (sumPosVarCount mb.m_links) =
        List.range' 0 (7 + sumPosVarCount mb.m_links) := by
      have h0 := List.range'_append_1 0 7 (sumPosVarCount mb.m_links)
      rw [Nat.zero_add] at h0
      rw [h0, Nat.add_comm]
    rw [hb, r7, List.append_assoc, e, List.range_eq_range']
  · rw [he, h7]
    have hb : uIndices (packBase env s mb).events = uIndices s.events ++ [0, 1, 2, 3, 4, 5] := by
      simp [packBase, writeQ, writeQdot, setReplyType, setReplyStateArgs, Server.emit, uIndices,
        List.filterMap_append]
    have e : List.range' 0 6 ++ List.range' 6 (sumDofCount mb.m_links) =
        List.range' 0 (6 + sumDofCount mb.m_links) := by
      have h0 := List.range'_append_1 0 6 (sumDofCount mb.m_links)
      rw [Nat.zero_add] at h0
      rw [h0, Nat.add_comm]
    rw [hb, r6, List.append_assoc, e, List.range_eq_range']

/-- The dispatch on a `CMD_REQUEST_ACTUAL_STATE` command. -/
theorem processCommand_request {α : Type} (env : Collaborators α) (s : Server α)
    (c : SharedMemoryCommand α) (h : c.m_type = env.tags.CMD_REQUEST_ACTUAL_STATE) :
    processCommand env s c =
      (incNumServerCommands
        (match s.m_dynamicsWorld.m_multiBodies with
          | mb :: _ => sendActualState env s mb
          | [] => s.emit (Event.b3Warning 285)), false) := by
  unfold processCommand
  rw [h, if_neg (tags_load_ne_request env.tags).symm, if_pos rfl]

/-- The dispatch on a `CMD_LOAD_URDF` command. -/
theorem processCommand_load {α : Type} (env : Collaborators α) (s : Server α)
    (c : SharedMemoryCommand α) (h : c.m_type = env.tags.CMD_LOAD_URDF) :
    processCommand env s c =
      (incNumServerCommands
        (if (loadUrdf env s c.m_urdfArguments.m_urdfFileName
              { x := env.zero, y := env.zero, z := env.zero }
              { x := env.zero, y := env.zero, z := env.zero, w := env.one }
              c.m_urdfArguments.m_useMultiBody c.m_urdfArguments.m_useFixedBase).2
          then setReplyType
            (loadUrdf env s c.m_urdfArguments.m_urdfFileName
              { x := env.zero, y := env.zero, z := env.zero }
              { x := env.zero, y := env.zero, z := env.zero, w := env.one }
              c.m_urdfArguments.m_useMultiBody c.m_urdfArguments.m_useFixedBase).1
            env.tags.CMD_URDF_LOADING_COMPLETED
          else setReplyType
            (loadUrdf env s c.m_urdfArguments.m_urdfFileName
              { x := env.zero, y := env.zero, z := env.zero }
              { x := env.zero, y := env.zero, z := env.zero, w := env.one }
              c.m_urdfArguments.m_useMultiBody c.m_urdfArguments.m_useFixedBase).1
            env.tags.CMD_URDF_LOADING_FAILED), false) := by
  unfold processCommand
  rw [if_pos h]

/-- The dispatch on a `CMD_SHUTDOWN` command. -/
theorem processCommand_shutdown {α : Type} (env : Collaborators α) (s : Server α)
    (c : SharedMemoryCommand α) (h : c.m_type = env.tags.CMD_SHUTDOWN) :
    processCommand env s c = (s, true) := by
  unfold processCommand
  rw [h, if_neg (tags_load_ne_shutdown env.tags).symm,
    if_neg (tags_request_ne_shutdown env.tags).symm,
    if_neg (tags_step_ne_shutdown env.tags).symm, if_pos rfl]

/-- The dispatch on a command whose tag is none of the four case labels. -/
theorem processCommand_default {α : Type} (env : Collaborators α) (s : Server α)
    (c : SharedMemoryCommand α) (h1 : c.m_type ≠ env.tags.CMD_LOAD_URDF)
    (h2 : c.m_type ≠ env.tags.CMD_REQUEST_ACTUAL_STATE)
    (h3 : c.m_type ≠ env.tags.CMD_STEP_FORWARD_SIMULATION)
    (h4 : c.m_type ≠ env.tags.CMD_SHUTDOWN) :
    processCommand env s c = ((s.emit (Event.b3Error 335)).emit (Event.btAssert 336 false), false) := by
  unfold processCommand
  rw [if_neg h1, if_neg h2, if_neg h3, if_neg h4]

/-- The step on an outstanding `CMD_REQUEST_ACTUAL_STATE` command when the
world has a first multibody. -/
theorem stepSimulation_request {α : Type} (env : Collaborators α) (s : Server α) (dt : α)
    (mb : btMultiBody α) (rest : List (btMultiBody α))
    (hb : s.m_testBlock1 = true)
    (hc : s.m_block.m_numClientCommands > s.m_block.m_numProcessedClientCommands)
    (ht : (s.m_block.m_clientCommands 0).m_type = env.tags.CMD_REQUEST_ACTUAL_STATE)
    (hw : s.m_dynamicsWorld.m_multiBodies = mb :: rest) :
    stepSimulation env s dt =
      some (incNumServerCommands (sendActualState env (afterConsume s) mb)) := by
  rw [stepSimulation_outstanding env s dt hb hc]
  simp only [processCommand_request env _ _ ht]
  have hw1 : (afterConsume s).m_dynamicsWorld.m_multiBodies = mb :: rest := hw
  simp only [afterConsume, Server.emit] at hw1 ⊢
  simp only [hw1]
  rfl

/-- The step on an outstanding `CMD_REQUEST_ACTUAL_STATE` command when the
world has no multibody. -/
theorem stepSimulation_request_empty {α : Type} (env : Collaborators α) (s : Server α) (dt : α)
    (hb : s.m_testBlock1 = true)
    (hc : s.m_block.m_numClientCommands > s.m_block.m_numProcessedClientCommands)
    (ht : (s.m_block.m_clientCommands 0).m_type = env.tags.CMD_REQUEST_ACTUAL_STATE)
    (hw : s.m_dynamicsWorld.m_multiBodies = []) :
    stepSimulation env s dt =
      some (incNumServerCommands ((afterConsume s).emit (Event.b3Warning 285))) := by
  rw [stepSimulation_outstanding env s dt hb hc]
  simp only [processCommand_request env _ _ ht]
  have hw1 : (afterConsume s).m_dynamicsWorld.m_multiBodies = [] := hw
  simp only [afterConsume, Server.emit] at hw1 ⊢
  simp only [hw1]
  rfl

/-! ## Lemmas on the frame of the methods -/

theorem assertsOf_append (a b : List Event) : assertsOf (a ++ b) = assertsOf a ++ assertsOf b := by
  simp [assertsOf, List.filterMap_append]

theorem replyWritesOf_append (a b : List Event) :
    replyWritesOf (a ++ b) = replyWritesOf a ++ replyWritesOf b := by
  simp [replyWritesOf, List.filterMap_append]

theorem assertsOf_writeQ (q n : Nat) :
    assertsOf ((List.range n).map fun d => Event.writeQ (q + d)) = [] := by
  induction n with
  | zero => simp [assertsOf]
  | succ n ih =>
    rw [List.range_succ, List.map_append, assertsOf_append, ih]
    simp [assertsOf]

theorem assertsOf_writeQdot (u n : Nat) :
    assertsOf ((List.range n).map fun d => Event.writeQdot (u + d)) = [] := by
  induction n with
  | zero => simp [assertsOf]
  | succ n ih =>
    rw [List.range_succ, List.map_append, assertsOf_append, ih]
    simp [assertsOf]

theorem replyWritesOf_writeQ (q n : Nat) :
    replyWritesOf ((List.range n).map fun d => Event.writeQ (q + d)) = [] := by
  induction n with
  | zero => simp [replyWritesOf]
  | succ n ih =>
    rw [List.range_succ, List.map_append, replyWritesOf_append, ih]
    simp [replyWritesOf]

theorem replyWritesOf_writeQdot (u n : Nat) :
    replyWritesOf ((List.range n).map fun d => Event.writeQdot (u + d)) = [] := by
  induction n with
  | zero => simp [replyWritesOf]
  | succ n ih =>
    rw [List.range_succ, List.map_append, replyWritesOf_append, ih]
    simp [replyWritesOf]

/-- The loop over the links evaluates no assertion and stores no reply type. -/
theorem packLinks_trace {α : Type} (links : List (btMultibodyLink α)) :
    ∀ (s : Server α) (q u : Nat),
      assertsOf (links.foldl packLink (s, q, u)).1.events = assertsOf s.events ∧
      replyWritesOf (links.foldl packLink (s, q, u)).1.events = replyWritesOf s.events := by
  induction links with
  | nil => intro s q u; exact ⟨rfl, rfl⟩
  | cons lk rest ih =>
    intro s q u
    rw [List.foldl_cons, packLink_eq]
    obtain ⟨h1, h2⟩ :=
      ih (uWrites (qWrites s q lk.m_posVarCount lk.m_jointPos) u lk.m_dofCount lk.m_jointVel)
        (q + lk.m_posVarCount) (u + lk.m_dofCount)
    rw [h1, h2]
    simp only [uWrites, qWrites, assertsOf_append, assertsOf_writeQ, assertsOf_writeQdot,
      replyWritesOf_append, replyWritesOf_writeQ, replyWritesOf_writeQdot, List.append_nil,
      and_self]

/-- Assertions and reply types in the trace of `sendActualState`. -/
theorem sendActualState_trace {α : Type} (env : Collaborators α) (s : Server α)
    (mb : btMultiBody α) :
    assertsOf (sendActualState env s mb).events = assertsOf s.events ∧
    replyWritesOf (sendActualState env s mb).events =
      replyWritesOf s.events ++ [env.tags.CMD_ACTUAL_STATE_UPDATE_COMPLETED] := by
  have he : (sendActualState env s mb).events =
      (mb.m_links.foldl packLink (packBase env s mb, 7, 6)).1.events := rfl
  obtain ⟨h1, h2⟩ := packLinks_trace mb.m_links (packBase env s mb) 7 6
  rw [he, h1, h2]
  constructor
  · simp [packBase, writeQ, writeQdot, setReplyType, setReplyStateArgs, Server.emit, assertsOf,
      List.filterMap_append]
  · simp [packBase, writeQ, writeQdot, setReplyType, setReplyStateArgs, Server.emit,
      replyWritesOf, List.filterMap_append]

/-- The loop of `loadUrdf` over the constraints changes only `m_jointFeedbacks`
and the constraints of the world. -/
theorem attachJointFeedback_frame {α : Type} (l : List Nat) :
    ∀ s : Server α,
      (l.foldl attachJointFeedback s).m_block = s.m_block ∧
      (l.foldl attachJointFeedback s).events = s.events ∧
      (l.foldl attachJointFeedback s).m_sharedMemory = s.m_sharedMemory ∧
      (l.foldl attachJointFeedback s).m_testBlock1 = s.m_testBlock1 ∧
      (l.foldl attachJointFeedback s).m_wantsShutdown = s.m_wantsShutdown ∧
      (l.foldl attachJointFeedback s).m_dynamicsWorld.m_multiBodies =
        s.m_dynamicsWorld.m_multiBodies := by
  induction l with
  | nil => intro s; simp
  | cons i rest ih =>
    intro s
    rw [List.foldl_cons]
    obtain ⟨h1, h2, h3, h4, h5, h6⟩ := ih (attachJointFeedback s i)
    rw [h1, h2, h3, h4, h5, h6]
    simp [attachJointFeedback]

/-- The fields `loadUrdf` leaves alone, and its trace. -/
theorem loadUrdf_frame {α : Type} (env : Collaborators α) (s : Server α) (fileName : String)
    (pos : btVector3 α) (orn : btQuaternion α) (useMultiBody useFixedBase : Bool) :
    (loadUrdf env s fileName pos orn useMultiBody useFixedBase).1.m_block = s.m_block ∧
    (loadUrdf env s fileName pos orn useMultiBody useFixedBase).1.m_sharedMemory =
      s.m_sharedMemory ∧
    (loadUrdf env s fileName pos orn useMultiBody useFixedBase).1.m_testBlock1 = s.m_testBlock1 ∧
    (loadUrdf env s fileName pos orn useMultiBody useFixedBase).1.m_wantsShutdown =
      s.m_wantsShutdown ∧
    assertsOf (loadUrdf env s fileName pos orn useMultiBody useFixedBase).1.events =
      assertsOf s.events ∧
    replyWritesOf (loadUrdf env s fileName pos orn useMultiBody useFixedBase).1.events =
      replyWritesOf s.events := by
  unfold loadUrdf
  by_cases h1 : env.loadURDF fileName = true
  · simp only [h1, if_true]
    cases useMultiBody with
    | true =>
      simp only [if_true]
      by_cases h3 : env.getBulletMultiBody fileName pos orn s.m_dynamicsWorld true = true
      · simp only [h3, if_true, and_self]
      · simp only [h3, if_false, Bool.false_eq_true]
        simp [Server.emit, assertsOf, replyWritesOf, List.filterMap_append]
    | false =>
      simp only [if_false, Bool.false_eq_true]
      obtain ⟨g1, g2, g3, g4, g5, -⟩ := attachJointFeedback_frame
        (List.range (env.ConvertURDF2Bullet fileName pos orn s.m_dynamicsWorld
          false).m_constraints.length)
        { s with m_dynamicsWorld :=
            env.ConvertURDF2Bullet fileName pos orn s.m_dynamicsWorld false }
      rw [g1, g2, g3, g4, g5]
      simp
  · simp only [h1, if_false, Bool.false_eq_true, and_self]

/-- The step on an outstanding `CMD_LOAD_URDF` command. -/
theorem stepSimulation_load {α : Type} (env : Collaborators α) (s : Server α) (dt : α)
    (hb : s.m_testBlock1 = true)
    (hc : s.m_block.m_numClientCommands > s.m_block.m_numProcessedClientCommands)
    (ht : (s.m_block.m_clientCommands 0).m_type = env.tags.CMD_LOAD_URDF) :
    stepSimulation env s dt =
      some (incNumServerCommands
        (setReplyType (loadUrdfOfCommand env (afterConsume s) (s.m_block.m_clientCommands 0)).1
          (if (loadUrdfOfCommand env (afterConsume s) (s.m_block.m_clientCommands 0)).2 then
            env.tags.CMD_URDF_LOADING_COMPLETED
          else env.tags.CMD_URDF_LOADING_FAILED))) := by
  rw [stepSimulation_outstanding env s dt hb hc]
  simp only [processCommand_load env _ _ ht]
  have key : ∀ (r : Server α × Bool) (c f : Int),
      (if r.2 = true then setReplyType r.1 c else setReplyType r.1 f) =
        setReplyType r.1 (if r.2 = true then c else f) := by
    intro r c f
    split <;> rfl
  simp only [Bool.false_eq_true, if_false, key]
  rfl

/-- The step on an outstanding `CMD_SHUTDOWN` command. -/
theorem stepSimulation_shutdown {α : Type} (env : Collaborators α) (s : Server α) (dt : α)
    (hb : s.m_testBlock1 = true)
    (hc : s.m_block.m_numClientCommands > s.m_block.m_numProcessedClientCommands)
    (ht : (s.m_block.m_clientCommands 0).m_type = env.tags.CMD_SHUTDOWN) :
    stepSimulation env s dt =
      releaseSharedMemory { afterConsume s with m_wantsShutdown := true } := by
  rw [stepSimulation_outstanding env s dt hb hc]
  simp only [processCommand_shutdown env _ _ ht, if_true]
  rfl

/-- The method `releaseSharedMemory` on a server with both pointers non-null. -/
theorem releaseSharedMemory_allocated {α : Type} (s : Server α)
    (hb : s.m_testBlock1 = true) (hs : s.m_sharedMemory = true) :
    releaseSharedMemory s =
      some { s with
        m_sharedMemory := false
        m_testBlock1 := false
        m_block := { s.m_block with m_magicId := 0 }
        events := s.events ++ [Event.btAssert 71 true, Event.releaseSharedRegion,
          Event.deleteSharedMemory] } := by
  unfold releaseSharedMemory
  simp [hb, hs, Server.emit]

/-- The step on an outstanding `CMD_STEP_FORWARD_SIMULATION` command. -/
theorem stepSimulation_step {α : Type} (env : Collaborators α) (s : Server α) (dt : α)
    (hb : s.m_testBlock1 = true)
    (hc : s.m_block.m_numClientCommands > s.m_block.m_numProcessedClientCommands)
    (ht : (s.m_block.m_clientCommands 0).m_type = env.tags.CMD_STEP_FORWARD_SIMULATION) :
    stepSimulation env s dt =
      some (incNumServerCommands
        (setReplyType
          { afterConsume s with m_dynamicsWorld :=
              (env.worldStepSimulation s.m_dynamicsWorld
                (s.m_block.m_clientCommands 0).m_stepSimulationArguments.m_deltaTimeInSeconds) }
          env.tags.CMD_STEP_FORWARD_SIMULATION_COMPLETED)) := by
  rw [stepSimulation_outstanding env s dt hb hc]
  simp only [processCommand_step env _ _ ht]
  rfl

/-- The step on an outstanding command whose tag is none of the case labels. -/
theorem stepSimulation_default {α : Type} (env : Collaborators α) (s : Server α) (dt : α)
    (hb : s.m_testBlock1 = true)
    (hc : s.m_block.m_numClientCommands > s.m_block.m_numProcessedClientCommands)
    (h1 : (s.m_block.m_clientCommands 0).m_type ≠ env.tags.CMD_LOAD_URDF)
    (h2 : (s.m_block.m_clientCommands 0).m_type ≠ env.tags.CMD_REQUEST_ACTUAL_STATE)
    (h3 : (s.m_block.m_clientCommands 0).m_type ≠ env.tags.CMD_STEP_FORWARD_SIMULATION)
    (h4 : (s.m_block.m_clientCommands 0).m_type ≠ env.tags.CMD_SHUTDOWN) :
    stepSimulation env s dt =
      some (((afterConsume s).emit (Event.b3Error 335)).emit (Event.btAssert 336 false)) := by
  rw [stepSimulation_outstanding env s dt hb hc]
  simp only [processCommand_default env _ _ h1 h2 h3 h4]
  rfl

theorem assertsOf_afterConsume {α : Type} (s : Server α) :
    assertsOf (afterConsume s).events = assertsOf s.events ++
      [(191, decide (s.m_block.m_numClientCommands =
        s.m_block.m_numProcessedClientCommands + 1))] := by
  simp [afterConsume, Server.emit, assertsOf, List.filterMap_append]

/-- The step when a command is outstanding and both pointers are non-null: it
returns; the assertions it evaluates, the four counters and the client slots
afterwards. -/
theorem stepSimulation_consume {α : Type} (env : Collaborators α) (s : Server α) (dt : α)
    (hb : s.m_testBlock1 = true) (hs : s.m_sharedMemory = true)
    (hc : s.m_block.m_numClientCommands > s.m_block.m_numProcessedClientCommands) :
    ∃ s1, stepSimulation env s dt = some s1 ∧
      assertsOf s1.events = assertsOf s.events ++
        (191, decide (s.m_block.m_numClientCommands =
          s.m_block.m_numProcessedClientCommands + 1)) ::
          assertsAfterConsume env.tags (s.m_block.m_clientCommands 0).m_type ∧
      s1.m_block.m_numClientCommands = s.m_block.m_numClientCommands ∧
      s1.m_block.m_numProcessedClientCommands = s.m_block.m_numProcessedClientCommands + 1 ∧
      s1.m_block.m_numProcessedServerCommands = s.m_block.m_numProcessedServerCommands ∧
      s1.m_block.m_numServerCommands =
        (if isReplyingTag env.tags (s.m_block.m_clientCommands 0).m_type then
          incrementInt s.m_block.m_numServerCommands
        else s.m_block.m_numServerCommands) ∧
      s1.m_block.m_clientCommands = s.m_block.m_clientCommands := by
  by_cases t1 : (s.m_block.m_clientCommands 0).m_type = env.tags.CMD_LOAD_URDF
  · have hr : isReplyingTag env.tags (s.m_block.m_clientCommands 0).m_type = true := by
      simp [isReplyingTag, t1]
    obtain ⟨g1, -, -, -, g5, -⟩ := loadUrdf_frame env (afterConsume s)
      (s.m_block.m_clientCommands 0).m_urdfArguments.m_urdfFileName
      { x := env.zero, y := env.zero, z := env.zero }
      { x := env.zero, y := env.zero, z := env.zero, w := env.one }
      (s.m_block.m_clientCommands 0).m_urdfArguments.m_useMultiBody
      (s.m_block.m_clientCommands 0).m_urdfArguments.m_useFixedBase
    refine ⟨_, stepSimulation_load env s dt hb hc t1, ?_, ?_, ?_, ?_, ?_, ?_⟩
    · simp only [assertsAfterConsume, hr, if_true]
      rw [← assertsOf_afterConsume, ← g5]
      simp [incNumServerCommands, setReplyType, Server.emit, assertsOf_append, assertsOf,
        loadUrdfOfCommand]
    · show (loadUrdfOfCommand env (afterConsume s) _).1.m_block.m_numClientCommands = _
      unfold loadUrdfOfCommand; rw [g1]; rfl
    · show (loadUrdfOfCommand env (afterConsume s) _).1.m_block.m_numProcessedClientCommands = _
      unfold loadUrdfOfCommand; rw [g1]; rfl
    · show (loadUrdfOfCommand env (afterConsume s) _).1.m_block.m_numProcessedServerCommands = _
      unfold loadUrdfOfCommand; rw [g1]; rfl
    · rw [hr, if_pos rfl]
      show incrementInt
        (loadUrdfOfCommand env (afterConsume s) _).1.m_block.m_numServerCommands = _
      unfold loadUrdfOfCommand; rw [g1]; rfl
    · show (loadUrdfOfCommand env (afterConsume s) _).1.m_block.m_clientCommands = _
      unfold loadUrdfOfCommand; rw [g1]; rfl
  by_cases t2 : (s.m_block.m_clientCommands 0).m_type = env.tags.CMD_REQUEST_ACTUAL_STATE
  · have hr : isReplyingTag env.tags (s.m_block.m_clientCommands 0).m_type = true := by
      simp [isReplyingTag, t2]
    simp only [assertsAfterConsume, hr, if_true]
    cases hw : s.m_dynamicsWorld.m_multiBodies with
    | nil =>
      refine ⟨_, stepSimulation_request_empty env s dt hb hc t2 hw, ?_, rfl, rfl, rfl, rfl, rfl⟩
      rw [← assertsOf_afterConsume]
      simp [incNumServerCommands, Server.emit, assertsOf_append, assertsOf]
    | cons mb rest =>
      obtain ⟨f1, f2, f3, f4, f5, -⟩ := sendActualState_frame env (afterConsume s) mb
      refine ⟨_, stepSimulation_request env s dt mb rest hb hc t2 hw, ?_, ?_, ?_, ?_, ?_, ?_⟩
      · rw [← assertsOf_afterConsume, ← (sendActualState_trace env (afterConsume s) mb).1]
        rfl
      · show (sendActualState env (afterConsume s) mb).m_block.m_numClientCommands = _
        rw [f2]; rfl
      · show (sendActualState env (afterConsume s) mb).m_block.m_numProcessedClientCommands = _
        rw [f3]; rfl
      · show (sendActualState env (afterConsume s) mb).m_block.m_numProcessedServerCommands = _
        rw [f4]; rfl
      · show incrementInt (sendActualState env (afterConsume s) mb).m_block.m_numServerCommands = _
        rw [f1]; rfl
      · show (sendActualState env (afterConsume s) mb).m_block.m_clientCommands = _
        rw [f5]; rfl
  by_cases t3 : (s.m_block.m_clientCommands 0).m_type = env.tags.CMD_STEP_FORWARD_SIMULATION
  · have hr : isReplyingTag env.tags (s.m_block.m_clientCommands 0).m_type = true := by
      simp [isReplyingTag, t3]
    simp only [assertsAfterConsume, hr, if_true]
    refine ⟨_, stepSimulation_step env s dt hb hc t3, ?_, rfl, rfl, rfl, rfl, rfl⟩
    · rw [← assertsOf_afterConsume]
      simp [incNumServerCommands, setReplyType, Server.emit, assertsOf_append, assertsOf,
        afterConsume]
  have hr : isReplyingTag env.tags (s.m_block.m_clientCommands 0).m_type = false := by
    simp [isReplyingTag, t1, t2, t3]
  simp only [assertsAfterConsume, hr, if_false, Bool.false_eq_true]
  by_cases t4 : (s.m_block.m_clientCommands 0).m_type = env.tags.CMD_SHUTDOWN
  · rw [stepSimulation_shutdown env s dt hb hc t4,
      releaseSharedMemory_allocated _ (by exact hb) (by exact hs)]
    refine ⟨_, rfl, ?_, rfl, rfl, rfl, rfl, rfl⟩
    simp [t4, afterConsume, Server.emit, assertsOf, List.filterMap_append]
  · refine ⟨_, stepSimulation_default env s dt hb hc t1 t2 t3 t4, ?_, rfl, rfl, rfl, rfl, rfl⟩
    simp [t4, afterConsume, Server.emit, assertsOf, List.filterMap_append]

/-- The step when no command is outstanding: nothing changes. -/
theorem stepSimulation_idle {α : Type} (env : Collaborators α) (s : Server α) (dt : α)
    (hc : s.m_block.m_numClientCommands ≤ s.m_block.m_numProcessedClientCommands) :
    stepSimulation env s dt = some s := by
  unfold stepSimulation
  have h : ¬ s.m_block.m_numClientCommands > s.m_block.m_numProcessedClientCommands := by omega
  cases hb : s.m_testBlock1 <;> simp [h]

/-- The step when the block pointer is null: nothing changes. -/
theorem stepSimulation_noBlock {α : Type} (env : Collaborators α) (s : Server α) (dt : α)
    (hb : s.m_testBlock1 = false) :
    stepSimulation env s dt = some s := by
  unfold stepSimulation
  simp [hb]

/-- Any number of steps with a null block pointer change nothing. -/
theorem stepSimulationMany_noBlock {α : Type} (env : Collaborators α) (s : Server α)
    (hb : s.m_testBlock1 = false) (dts : List α) :
    stepSimulationMany env s dts = some s := by
  induction dts with
  | nil => rfl
  | cons dt rest ih =>
    simp only [stepSimulationMany, stepSimulation_noBlock env s dt hb, Option.some_bind, ih]

/-- The members of `assertsAfterConsume` are assertions of lines 71 and 336. -/
theorem mem_assertsAfterConsume (t : CommandTags) (tag : Int) (x : Nat × Bool)
    (h : x ∈ assertsAfterConsume t tag) : x = (71, true) ∨ x = (336, false) := by
  unfold assertsAfterConsume at h
  split at h
  · simp at h
  · split at h
    · simp at h; exact Or.inl h
    · simp at h; exact Or.inr h

/-! ## Lemmas on `loadUrdf` -/

/-- The loop of lines 163-170 over the first `n` constraints: `n` records are
pushed, record `k + i` is set on constraint `i`, and the constraints from `n`
on are as before; `k` is the number of records before the loop. -/
theorem attachJointFeedback_range {α : Type} (s : Server α) (n : Nat)
    (hn : n ≤ s.m_dynamicsWorld.m_constraints.length) :
    ((List.range n).foldl attachJointFeedback s).m_jointFeedbacks =
        s.m_jointFeedbacks ++ (List.range n).map (fun i => s.m_jointFeedbacks.length + i) ∧
      ((List.range n).foldl attachJointFeedback s).m_dynamicsWorld.m_constraints =
        (List.range n).map
            (fun i => ({ m_jointFeedback := some (s.m_jointFeedbacks.length + i) } :
              btTypedConstraint)) ++
          s.m_dynamicsWorld.m_constraints.drop n := by
  induction n with
  | zero => simp
  | succ n ih =>
    obtain ⟨h1, h2⟩ := ih (by omega)
    rw [List.range_succ, List.foldl_append]
    simp only [List.foldl_cons, List.foldl_nil, attachJointFeedback, h1, h2]
    constructor
    · simp [List.range_succ]
    · simp only [List.map_append, List.map_cons, List.map_nil, List.length_append,
        List.length_map, List.length_range, List.append_assoc]
      have hlen : ((List.range n).map
          (fun i => ({ m_jointFeedback := some (s.m_jointFeedbacks.length + i) } :
            btTypedConstraint))).length = n := by simp
      rw [List.set_append_right _ _ (by rw [hlen])]
      rw [hlen, Nat.sub_self]
      have hd : s.m_dynamicsWorld.m_constraints.drop n =
          s.m_dynamicsWorld.m_constraints[n] :: s.m_dynamicsWorld.m_constraints.drop (n + 1) :=
        List.drop_eq_getElem_cons (by omega)
      rw [hd, List.set_cons_zero]
      rfl

/-! ## Lemmas on the two pointers -/

/-- The step when a command is outstanding and both pointers are non-null: it
returns, and both pointers are afterwards non-null or both null. -/
theorem stepSimulation_pointers {α : Type} (env : Collaborators α) (s : Server α) (dt : α)
    (hb : s.m_testBlock1 = true) (hs : s.m_sharedMemory = true)
    (hc : s.m_block.m_numClientCommands > s.m_block.m_numProcessedClientCommands) :
    ∃ s1, stepSimulation env s dt = some s1 ∧
      ((s1.m_testBlock1 = true ∧ s1.m_sharedMemory = true) ∨
        (s1.m_testBlock1 = false ∧ s1.m_sharedMemory = false)) := by
  by_cases t1 : (s.m_block.m_clientCommands 0).m_type = env.tags.CMD_LOAD_URDF
  · obtain ⟨-, g2, g3, -⟩ := loadUrdf_frame env (afterConsume s)
      (s.m_block.m_clientCommands 0).m_urdfArguments.m_urdfFileName
      { x := env.zero, y := env.zero, z := env.zero }
      { x := env.zero, y := env.zero, z := env.zero, w := env.one }
      (s.m_block.m_clientCommands 0).m_urdfArguments.m_useMultiBody
      (s.m_block.m_clientCommands 0).m_urdfArguments.m_useFixedBase
    refine ⟨_, stepSimulation_load env s dt hb hc t1, Or.inl ⟨?_, ?_⟩⟩
    · show (loadUrdfOfCommand env (afterConsume s) _).1.m_testBlock1 = true
      unfold loadUrdfOfCommand; rw [g3]; exact hb
    · show (loadUrdfOfCommand env (afterConsume s) _).1.m_sharedMemory = true
      unfold loadUrdfOfCommand; rw [g2]; exact hs
  by_cases t2 : (s.m_block.m_clientCommands 0).m_type = env.tags.CMD_REQUEST_ACTUAL_STATE
  · cases hw : s.m_dynamicsWorld.m_multiBodies with
    | nil =>
      exact ⟨_, stepSimulation_request_empty env s dt hb hc t2 hw, Or.inl ⟨hb, hs⟩⟩
    | cons mb rest =>
      obtain ⟨-, -, -, -, -, -, -, -, f9, f10, -⟩ := sendActualState_frame env (afterConsume s) mb
      refine ⟨_, stepSimulation_request env s dt mb rest hb hc t2 hw, Or.inl ⟨?_, ?_⟩⟩
      · show (sendActualState env (afterConsume s) mb).m_testBlock1 = true
        rw [f10]; exact hb
      · show (sendActualState env (afterConsume s) mb).m_sharedMemory = true
        rw [f9]; exact hs
  by_cases t3 : (s.m_block.m_clientCommands 0).m_type = env.tags.CMD_STEP_FORWARD_SIMULATION
  · exact ⟨_, stepSimulation_step env s dt hb hc t3, Or.inl ⟨hb, hs⟩⟩
  by_cases t4 : (s.m_block.m_clientCommands 0).m_type = env.tags.CMD_SHUTDOWN
  · rw [stepSimulation_shutdown env s dt hb hc t4,
      releaseSharedMemory_allocated _ (by exact hb) (by exact hs)]
    exact ⟨_, rfl, Or.inr ⟨rfl, rfl⟩⟩
  · exact ⟨_, stepSimulation_default env s dt hb hc t1 t2 t3 t4, Or.inl ⟨hb, hs⟩⟩

/-- Every step from a server whose block pointer is null or whose handle is
non-null returns, and the returned server again has that property. -/
theorem stepSimulation_total {α : Type} (env : Collaborators α) (s : Server α) (dt : α)
    (hinv : s.m_testBlock1 = true → s.m_sharedMemory = true) :
    ∃ s1, stepSimulation env s dt = some s1 ∧
      (s1.m_testBlock1 = true → s1.m_sharedMemory = true) := by
  cases hb : s.m_testBlock1 with
  | false =>
    exact ⟨s, stepSimulation_noBlock env s dt hb, fun h => by rw [hb] at h; exact absurd h (by decide)⟩
  | true =>
    by_cases hc : s.m_block.m_numClientCommands > s.m_block.m_numProcessedClientCommands
    · obtain ⟨s1, h, hp⟩ := stepSimulation_pointers env s dt hb (hinv hb) hc
      refine ⟨s1, h, ?_⟩
      rcases hp with ⟨-, h2⟩ | ⟨h1, -⟩
      · exact fun _ => h2
      · intro h; rw [h1] at h; exact absurd h (by decide)
    · exact ⟨s, stepSimulation_idle env s dt (by omega), hinv⟩

/-- The method `releaseSharedMemory` on a server with both pointers null. -/
theorem releaseSharedMemory_released {α : Type} (s : Server α)
    (hb : s.m_testBlock1 = false) (hs : s.m_sharedMemory = false) :
    releaseSharedMemory s = some s := by
  unfold releaseSharedMemory
  simp [hb, hs]

/-- The method `releaseSharedMemory` on a server with a non-null handle and a
null block pointer. -/
theorem releaseSharedMemory_handleOnly {α : Type} (s : Server α)
    (hb : s.m_testBlock1 = false) (hs : s.m_sharedMemory = true) :
    releaseSharedMemory s =
      some { s with
        m_sharedMemory := false
        m_testBlock1 := false
        events := s.events ++ [Event.deleteSharedMemory] } := by
  unfold releaseSharedMemory
  simp [hb, hs, Server.emit]

/-! ## Lemmas on the reachable servers -/

/-- A successful `initPhysics`: the handle was non-null and the result is the
given server with an empty world, the block pointer set, the four counters 0
and the magic number stored. -/
theorem initPhysics_allocated {α : Type} (env : Collaborators α) (s0 s : Server α)
    (h : initPhysics env true s0 = some s) :
    s0.m_sharedMemory = true ∧
    s.m_sharedMemory = true ∧ s.m_testBlock1 = true ∧
    s.m_block.m_numClientCommands = 0 ∧ s.m_block.m_numServerCommands = 0 ∧
    s.m_block.m_numProcessedClientCommands = 0 ∧ s.m_block.m_numProcessedServerCommands = 0 ∧
    s.m_block.m_magicId = env.tags.SHARED_MEMORY_MAGIC_NUMBER := by
  unfold initPhysics at h
  cases hs : s0.m_sharedMemory with
  | false => simp [hs] at h
  | true =>
    simp only [hs, if_true, Option.some.injEq] at h
    subst h
    simp

/-- The counters and pointers of a server reachable from a successful
`initPhysics`. -/
theorem reachableFromInit_invariant {α : Type} (env : Collaborators α) (s : Server α)
    (h : ReachableFromInit env s) :
    s.m_block.m_numServerCommands ≤ s.m_block.m_numProcessedClientCommands ∧
    s.m_block.m_numProcessedClientCommands ≤ s.m_block.m_numClientCommands ∧
    s.m_block.m_numClientCommands ≤ s.m_block.m_numProcessedClientCommands + 1 ∧
    (s.m_testBlock1 = true → s.m_sharedMemory = true) ∧
    -2147483648 ≤ s.m_block.m_numServerCommands := by
  induction h with
  | init s0 s h0 =>
    obtain ⟨-, h1, -, h3, h4, h5, -, -⟩ := initPhysics_allocated env s0 s h0
    rw [h3, h4, h5]
    exact ⟨le_refl _, le_refl _, by omega, fun _ => h1, by omega⟩
  | step s s1 dt _ hstep ih =>
    obtain ⟨i1, i2, i3, i4, i5⟩ := ih
    cases hb : s.m_testBlock1 with
    | false =>
      rw [stepSimulation_noBlock env s dt hb] at hstep
      cases hstep
      exact ⟨i1, i2, i3, i4, i5⟩
    | true =>
      by_cases hc : s.m_block.m_numClientCommands > s.m_block.m_numProcessedClientCommands
      · obtain ⟨s2, h2, -, c1, c2, -, c4, -⟩ := stepSimulation_consume env s dt hb (i4 hb) hc
        obtain ⟨s3, h3, hp⟩ := stepSimulation_pointers env s dt hb (i4 hb) hc
        rw [hstep] at h2 h3
        cases h2
        cases h3
        have hle := incrementInt_le s.m_block.m_numServerCommands i5
        have hrg := (incrementInt_range s.m_block.m_numServerCommands).1
        refine ⟨?_, by omega, by omega, ?_, ?_⟩
        · rw [c4, c2]; split <;> omega
        · rcases hp with ⟨-, p2⟩ | ⟨p1, -⟩
          · exact fun _ => p2
          · intro h; rw [p1] at h; exact absurd h (by decide)
        · rw [c4]; split <;> omega
      · rw [stepSimulation_idle env s dt (by omega)] at hstep
        cases hstep
        exact ⟨i1, i2, i3, i4, i5⟩
  | submit s cmd _ hno ih =>
    obtain ⟨i1, i2, i3, i4, i5⟩ := ih
    refine ⟨i1, ?_, ?_, i4, i5⟩
    · show s.m_block.m_numProcessedClientCommands ≤ s.m_block.m_numClientCommands + 1
      omega
    · show s.m_block.m_numClientCommands + 1 ≤ s.m_block.m_numProcessedClientCommands + 1
      omega

/-! ## Lemmas on the use of the world step -/

/-- The dispatch of a command other than `CMD_STEP_FORWARD_SIMULATION` does not
depend on the function stepping the world. -/
theorem processCommand_withWorldStep {α : Type} (env : Collaborators α)
    (f : btMultiBodyDynamicsWorld α → α → btMultiBodyDynamicsWorld α) (s : Server α)
    (c : SharedMemoryCommand α) (h : c.m_type ≠ env.tags.CMD_STEP_FORWARD_SIMULATION) :
    processCommand (withWorldStep env f) s c = processCommand env s c := by
  have h0 : c.m_type ≠ (withWorldStep env f).tags.CMD_STEP_FORWARD_SIMULATION := h
  by_cases t1 : c.m_type = env.tags.CMD_LOAD_URDF
  · rw [processCommand_load env s c t1, processCommand_load (withWorldStep env f) s c t1]
    rfl
  by_cases t2 : c.m_type = env.tags.CMD_REQUEST_ACTUAL_STATE
  · rw [processCommand_request env s c t2, processCommand_request (withWorldStep env f) s c t2]
    rfl
  by_cases t4 : c.m_type = env.tags.CMD_SHUTDOWN
  · rw [processCommand_shutdown env s c t4, processCommand_shutdown (withWorldStep env f) s c t4]
  · rw [processCommand_default env s c t1 t2 h t4,
      processCommand_default (withWorldStep env f) s c t1 t2 h0 t4]

/-- The step does not read its argument `deltaTime`. -/
theorem stepSimulation_deltaTime {α : Type} (env : Collaborators α) (s : Server α)
    (dt1 dt2 : α) : stepSimulation env s dt1 = stepSimulation env s dt2 := rfl

/-- Whenever `releaseSharedMemory` returns, both pointers are null. -/
theorem releaseSharedMemory_null {α : Type} (s s1 : Server α)
    (h : releaseSharedMemory s = some s1) :
    s1.m_testBlock1 = false ∧ s1.m_sharedMemory = false := by
  cases hb : s.m_testBlock1 <;> cases hs : s.m_sharedMemory
  · rw [releaseSharedMemory_released s hb hs] at h
    cases h
    exact ⟨hb, hs⟩
  · rw [releaseSharedMemory_handleOnly s hb hs] at h
    cases h
    exact ⟨rfl, rfl⟩
  · unfold releaseSharedMemory at h
    simp [hb, hs, Server.emit] at h
  · rw [releaseSharedMemory_allocated s hb hs] at h
    cases h
    exact ⟨rfl, rfl⟩

/-- In a server reachable from the constructor a non-null block pointer comes
with a non-null handle. -/
theorem reachableFromConstructor_invariant {α : Type} (env : Collaborators α) (s : Server α)
    (h : ReachableFromConstructor env s) :
    s.m_testBlock1 = true → s.m_sharedMemory = true := by
  induction h with
  | construct block world =>
    intro h
    exact absurd h (by simp [construct])
  | init s s1 allocated _ hinit _ =>
    intro _
    unfold initPhysics at hinit
    cases hs : s.m_sharedMemory with
    | false => simp [hs] at hinit
    | true =>
      cases allocated <;>
      · simp only [hs, if_true, Bool.false_eq_true, if_false, Option.some.injEq] at hinit
        subst hinit
        rfl
  | step s s1 dt _ hstep ih =>
    obtain ⟨s2, h2, hp⟩ := stepSimulation_total env s dt ih
    rw [hstep] at h2
    cases h2
    exact hp
  | release s s1 _ hrel _ =>
    intro h
    rw [(releaseSharedMemory_null s s1 hrel).1] at h
    exact absurd h (by decide)
  | clientWrite s block _ ih => exact ih

/-! ## The claims -/

/-- C1 fails as stated: at the sample server with one outstanding
STEP_FORWARD_SIMULATION command whose server-issued counter holds the
greatest int 2147483647, the step returns with the counter at -2147483648,
which is not the value before plus 1. -/
theorem C1_counterexample :
    (sampleServerMax 1 0 (sampleCommand 2 "") []).m_testBlock1 = true ∧
    (sampleServerMax 1 0 (sampleCommand 2 "") []).m_block.m_numClientCommands =
      (sampleServerMax 1 0 (sampleCommand 2 "") []).m_block.m_numProcessedClientCommands + 1 ∧
    ((sampleServerMax 1 0 (sampleCommand 2 "") []).m_block.m_clientCommands 0).m_type =
      sampleEnv.tags.CMD_STEP_FORWARD_SIMULATION ∧
    ∃ s1, stepSimulation sampleEnv (sampleServerMax 1 0 (sampleCommand 2 "") []) 7 = some s1 ∧
      s1.m_block.m_numServerCommands = -2147483648 ∧
      s1.m_block.m_numServerCommands ≠
        (sampleServerMax 1 0 (sampleCommand 2 "") []).m_block.m_numServerCommands + 1 := by
  refine ⟨rfl, by decide, rfl, _,
    stepSimulation_step sampleEnv _ 7 rfl (by decide) rfl, ?_, ?_⟩
  · exact incrementInt_max
  · show incrementInt 2147483647 ≠ 2147483647 + 1
    rw [incrementInt_max]
    decide

/-- C1 as amended: with an allocated block and exactly one outstanding client
command of type STEP_FORWARD_SIMULATION, whatever its deltaTimeInSeconds, one
call of stepSimulation returns and leaves reply slot 0 with the type
STEP_FORWARD_SIMULATION_COMPLETED; when the server-issued counter holds an int
below 2147483647, it has grown by exactly 1. -/
theorem C1_step_forward_reply {α : Type} (env : Collaborators α) (s : Server α) (deltaTime : α)
    (hb : s.m_testBlock1 = true)
    (hc : s.m_block.m_numClientCommands = s.m_block.m_numProcessedClientCommands + 1)
    (ht : (s.m_block.m_clientCommands 0).m_type = env.tags.CMD_STEP_FORWARD_SIMULATION) :
    ∃ s1, stepSimulation env s deltaTime = some s1 ∧
      (s1.m_block.m_serverCommands 0).m_type = env.tags.CMD_STEP_FORWARD_SIMULATION_COMPLETED ∧
      (-2147483648 ≤ s.m_block.m_numServerCommands →
        s.m_block.m_numServerCommands < 2147483647 →
        s1.m_block.m_numServerCommands = s.m_block.m_numServerCommands + 1) := by
  have hgt : s.m_block.m_numClientCommands > s.m_block.m_numProcessedClientCommands := by omega
  refine ⟨_, stepSimulation_step env s deltaTime hb hgt ht, ?_, ?_⟩
  · simp [incNumServerCommands, setReplyType, Server.emit]
  · intro h1 h2
    exact incrementInt_of_lt _ h1 h2

/-- C1 as amended, at the sample server with one outstanding step command and
the server-issued counter at 4. -/
theorem C1_step_forward_reply_witness :
    ∃ s1, stepSimulation sampleEnv (sampleServer 1 0 (sampleCommand 2 "") []) 7 = some s1 ∧
      (s1.m_block.m_serverCommands 0).m_type =
        sampleEnv.tags.CMD_STEP_FORWARD_SIMULATION_COMPLETED ∧
      s1.m_block.m_numServerCommands = 5 := by
  obtain ⟨s1, h, h1, h2⟩ :=
    C1_step_forward_reply sampleEnv (sampleServer 1 0 (sampleCommand 2 "") []) 7
      rfl (by decide) rfl
  exact ⟨s1, h, h1, h2 (by decide) (by decide)⟩

/-- C2: when stepSimulation consumes a REQUEST_ACTUAL_STATE command and `mb` is
the first multibody of the world, whatever the number of its links, the reply
carries numDegreeOfFreedomQ = 7 + P and numDegreeOfFreedomU = 6 + D where P
and D are the sums of the per-link position-variable and velocity-DOF counts. -/
theorem C2_actual_state_counts {α : Type} (env : Collaborators α) (s : Server α) (deltaTime : α)
    (mb : btMultiBody α) (rest : List (btMultiBody α))
    (hb : s.m_testBlock1 = true)
    (hc : s.m_block.m_numClientCommands > s.m_block.m_numProcessedClientCommands)
    (ht : (s.m_block.m_clientCommands 0).m_type = env.tags.CMD_REQUEST_ACTUAL_STATE)
    (hw : s.m_dynamicsWorld.m_multiBodies = mb :: rest) :
    ∃ s1, stepSimulation env s deltaTime = some s1 ∧
      (s1.m_block.m_serverCommands 0).m_sendActualStateArgs.m_numDegreeOfFreedomQ =
        7 + (sumPosVarCount mb.m_links : Int) ∧
      (s1.m_block.m_serverCommands 0).m_sendActualStateArgs.m_numDegreeOfFreedomU =
        6 + (sumDofCount mb.m_links : Int) := by
  refine ⟨_, stepSimulation_request env s deltaTime mb rest hb hc ht hw, ?_, ?_⟩
  · show ((sendActualState env (afterConsume s) mb).m_block.m_serverCommands
      0).m_sendActualStateArgs.m_numDegreeOfFreedomQ = _
    rw [sendActualState_reply]
    simp
  · show ((sendActualState env (afterConsume s) mb).m_block.m_serverCommands
      0).m_sendActualStateArgs.m_numDegreeOfFreedomU = _
    rw [sendActualState_reply]
    simp

/-- C2 at the sample server whose world holds the two-link sample multibody. -/
theorem C2_actual_state_counts_witness :
    ∃ s1, stepSimulation sampleEnv (sampleServer 1 0 (sampleCommand 1 "") [sampleMultiBody]) 7 =
        some s1 ∧
      (s1.m_block.m_serverCommands 0).m_sendActualStateArgs.m_numDegreeOfFreedomQ =
        7 + (sumPosVarCount sampleMultiBody.m_links : Int) ∧
      (s1.m_block.m_serverCommands 0).m_sendActualStateArgs.m_numDegreeOfFreedomU =
        6 + (sumDofCount sampleMultiBody.m_links : Int) :=
  C2_actual_state_counts sampleEnv (sampleServer 1 0 (sampleCommand 1 "") [sampleMultiBody]) 7
    sampleMultiBody [] rfl (by decide) rfl rfl

/-- C3 fails as stated, in two ways. At the sample server with one outstanding
REQUEST_ACTUAL_STATE command and a world without multibody, whose reply slot
holds type 99, the step returns and reply slot 0 still has type 99, which is
not ACTUAL_STATE_UPDATE_COMPLETED. At the sample server whose world holds a
multibody and whose server-issued counter holds the greatest int 2147483647,
the step returns with the counter at -2147483648, which is not the value
before plus 1. -/
theorem C3_counterexample :
    ((sampleServer 1 0 (sampleCommand 1 "") []).m_testBlock1 = true ∧
      (sampleServer 1 0 (sampleCommand 1 "") []).m_block.m_numClientCommands =
        (sampleServer 1 0 (sampleCommand 1 "") []).m_block.m_numProcessedClientCommands + 1 ∧
      ((sampleServer 1 0 (sampleCommand 1 "") []).m_block.m_clientCommands 0).m_type =
        sampleEnv.tags.CMD_REQUEST_ACTUAL_STATE ∧
      ∃ s1, stepSimulation sampleEnv (sampleServer 1 0 (sampleCommand 1 "") []) 7 = some s1 ∧
        (s1.m_block.m_serverCommands 0).m_type = 99 ∧
        (s1.m_block.m_serverCommands 0).m_type ≠
          sampleEnv.tags.CMD_ACTUAL_STATE_UPDATE_COMPLETED) ∧
    ((sampleServerMax 1 0 (sampleCommand 1 "") [sampleMultiBody]).m_testBlock1 = true ∧
      (sampleServerMax 1 0 (sampleCommand 1 "") [sampleMultiBody]).m_block.m_numClientCommands =
        (sampleServerMax 1 0 (sampleCommand 1 "")
          [sampleMultiBody]).m_block.m_numProcessedClientCommands + 1 ∧
      ((sampleServerMax 1 0 (sampleCommand 1 "") [sampleMultiBody]).m_block.m_clientCommands
        0).m_type = sampleEnv.tags.CMD_REQUEST_ACTUAL_STATE ∧
      ∃ s1, stepSimulation sampleEnv
          (sampleServerMax 1 0 (sampleCommand 1 "") [sampleMultiBody]) 7 = some s1 ∧
        s1.m_block.m_numServerCommands = -2147483648 ∧
        s1.m_block.m_numServerCommands ≠
          (sampleServerMax 1 0 (sampleCommand 1 "")
            [sampleMultiBody]).m_block.m_numServerCommands + 1) := by
  constructor
  · refine ⟨rfl, by decide, rfl, _,
      stepSimulation_request_empty sampleEnv _ 7 rfl (by decide) rfl rfl, ?_, ?_⟩
    · rfl
    · show (99 : Int) ≠ 12
      decide
  · have hn : (incNumServerCommands (sendActualState sampleEnv
        (afterConsume (sampleServerMax 1 0 (sampleCommand 1 "") [sampleMultiBody]))
        sampleMultiBody)).m_block.m_numServerCommands = -2147483648 := by
      show incrementInt (sendActualState sampleEnv
        (afterConsume (sampleServerMax 1 0 (sampleCommand 1 "") [sampleMultiBody]))
        sampleMultiBody).m_block.m_numServerCommands = _
      rw [(sendActualState_frame sampleEnv _ sampleMultiBody).1]
      exact incrementInt_max
    refine ⟨rfl, by decide, rfl, _,
      stepSimulation_request sampleEnv _ 7 sampleMultiBody [] rfl (by decide) rfl rfl, hn, ?_⟩
    rw [hn]
    show (-2147483648 : Int) ≠ 2147483647 + 1
    decide

/-- C3 as amended: with an allocated block and exactly one outstanding
REQUEST_ACTUAL_STATE command, whatever the world contains and whatever reply
slot 0 held, one stepSimulation returns; when the world contains at least one
multibody, reply slot 0 then has type ACTUAL_STATE_UPDATE_COMPLETED; when the
server-issued counter holds an int below 2147483647, it has grown by exactly
1. -/
theorem C3_actual_state_reply {α : Type} (env : Collaborators α) (s : Server α) (deltaTime : α)
    (hb : s.m_testBlock1 = true)
    (hc : s.m_block.m_numClientCommands = s.m_block.m_numProcessedClientCommands + 1)
    (ht : (s.m_block.m_clientCommands 0).m_type = env.tags.CMD_REQUEST_ACTUAL_STATE) :
    ∃ s1, stepSimulation env s deltaTime = some s1 ∧
      (-2147483648 ≤ s.m_block.m_numServerCommands →
        s.m_block.m_numServerCommands < 2147483647 →
        s1.m_block.m_numServerCommands = s.m_block.m_numServerCommands + 1) ∧
      (s.m_dynamicsWorld.m_multiBodies ≠ [] →
        (s1.m_block.m_serverCommands 0).m_type = env.tags.CMD_ACTUAL_STATE_UPDATE_COMPLETED) := by
  have hgt : s.m_block.m_numClientCommands > s.m_block.m_numProcessedClientCommands := by omega
  cases hw : s.m_dynamicsWorld.m_multiBodies with
  | nil =>
    refine ⟨_, stepSimulation_request_empty env s deltaTime hb hgt ht hw, ?_, ?_⟩
    · intro h1 h2
      exact incrementInt_of_lt _ h1 h2
    · intro h; exact absurd rfl h
  | cons mb rest =>
    refine ⟨_, stepSimulation_request env s deltaTime mb rest hb hgt ht hw, ?_, ?_⟩
    · intro h1 h2
      show incrementInt (sendActualState env (afterConsume s) mb).m_block.m_numServerCommands = _
      rw [(sendActualState_frame env (afterConsume s) mb).1]
      exact incrementInt_of_lt _ h1 h2
    · intro _
      show ((sendActualState env (afterConsume s) mb).m_block.m_serverCommands 0).m_type = _
      rw [sendActualState_reply]

/-- C3 as amended, at the sample server whose world holds the sample multibody
and whose server-issued counter is 4. -/
theorem C3_actual_state_reply_witness :
    ∃ s1, stepSimulation sampleEnv (sampleServer 1 0 (sampleCommand 1 "") [sampleMultiBody]) 7 =
        some s1 ∧
      s1.m_block.m_numServerCommands = 5 ∧
      (s1.m_block.m_serverCommands 0).m_type =
        sampleEnv.tags.CMD_ACTUAL_STATE_UPDATE_COMPLETED := by
  obtain ⟨s1, h, h1, h2⟩ :=
    C3_actual_state_reply sampleEnv (sampleServer 1 0 (sampleCommand 1 "") [sampleMultiBody]) 7
      rfl (by decide) rfl
  exact ⟨s1, h, h1 (by decide) (by decide), h2 (by simp [sampleServer, sampleWorld])⟩

/-- C4: after stepSimulation consumed REQUEST_ACTUAL_STATE for the first
multibody `mb`, Q[0..2] is the base position, Q[3..6] the base orientation
quaternion (x,y,z,w) read back from the transform given the inverse of the
world-to-base rotation, and cell 7 + (counts of the links before l) + d of Q
is position variable d of link l; U[0..2] is the base linear velocity,
U[3..5] the base angular velocity, and cell 6 + (counts of the links before
l) + d of U is velocity variable d of link l; the indices stored to during
the step are exactly 0, 1, ..., numDegreeOfFreedomQ - 1 for Q and
0, 1, ..., numDegreeOfFreedomU - 1 for U, each once. -/
theorem C4_actual_state_layout {α : Type} (env : Collaborators α) (s : Server α) (deltaTime : α)
    (mb : btMultiBody α) (rest : List (btMultiBody α))
    (hb : s.m_testBlock1 = true)
    (hc : s.m_block.m_numClientCommands > s.m_block.m_numProcessedClientCommands)
    (ht : (s.m_block.m_clientCommands 0).m_type = env.tags.CMD_REQUEST_ACTUAL_STATE)
    (hw : s.m_dynamicsWorld.m_multiBodies = mb :: rest) :
    ∃ s1, stepSimulation env s deltaTime = some s1 ∧
      s1.m_block.m_actualStateQ 0 = mb.m_basePos.x ∧
      s1.m_block.m_actualStateQ 1 = mb.m_basePos.y ∧
      s1.m_block.m_actualStateQ 2 = mb.m_basePos.z ∧
      s1.m_block.m_actualStateQ 3 =
        (env.transformRotation (env.quatInverse mb.m_worldToBaseRot)).x ∧
      s1.m_block.m_actualStateQ 4 =
        (env.transformRotation (env.quatInverse mb.m_worldToBaseRot)).y ∧
      s1.m_block.m_actualStateQ 5 =
        (env.transformRotation (env.quatInverse mb.m_worldToBaseRot)).z ∧
      s1.m_block.m_actualStateQ 6 =
        (env.transformRotation (env.quatInverse mb.m_worldToBaseRot)).w ∧
      s1.m_block.m_actualStateQdot 0 = mb.m_baseVel.x ∧
      s1.m_block.m_actualStateQdot 1 = mb.m_baseVel.y ∧
      s1.m_block.m_actualStateQdot 2 = mb.m_baseVel.z ∧
      s1.m_block.m_actualStateQdot 3 = mb.m_baseOmega.x ∧
      s1.m_block.m_actualStateQdot 4 = mb.m_baseOmega.y ∧
      s1.m_block.m_actualStateQdot 5 = mb.m_baseOmega.z ∧
      (∀ (l : Nat) (lk : btMultibodyLink α), mb.m_links[l]? = some lk →
        ∀ d, d < lk.m_posVarCount →
          s1.m_block.m_actualStateQ (7 + sumPosVarCount (mb.m_links.take l) + d) =
            lk.m_jointPos d) ∧
      (∀ (l : Nat) (lk : btMultibodyLink α), mb.m_links[l]? = some lk →
        ∀ d, d < lk.m_dofCount →
          s1.m_block.m_actualStateQdot (6 + sumDofCount (mb.m_links.take l) + d) =
            lk.m_jointVel d) ∧
      (∃ n : Nat,
        (s1.m_block.m_serverCommands 0).m_sendActualStateArgs.m_numDegreeOfFreedomQ = (n : Int) ∧
        qIndices s1.events = qIndices s.events ++ List.range n) ∧
      (∃ n : Nat,
        (s1.m_block.m_serverCommands 0).m_sendActualStateArgs.m_numDegreeOfFreedomU = (n : Int) ∧
        uIndices s1.events = uIndices s.events ++ List.range n) := by
  obtain ⟨a0, a1, a2, a3, a4, a5, a6, b0, b1, b2, b3, b4, b5, hq, hu, eq, eu⟩ :=
    sendActualState_arrays env (afterConsume s) mb
  have hr := sendActualState_reply env (afterConsume s) mb
  have e1 : qIndices (afterConsume s).events = qIndices s.events := by
    simp [afterConsume, Server.emit, qIndices, List.filterMap_append]
  have e2 : uIndices (afterConsume s).events = uIndices s.events := by
    simp [afterConsume, Server.emit, uIndices, List.filterMap_append]
  rw [e1] at eq
  rw [e2] at eu
  refine ⟨_, stepSimulation_request env s deltaTime mb rest hb hc ht hw,
    a0, a1, a2, a3, a4, a5, a6, b0, b1, b2, b3, b4, b5, hq, hu,
    ⟨7 + sumPosVarCount mb.m_links, ?_, eq⟩, ⟨6 + sumDofCount mb.m_links, ?_, eu⟩⟩
  · show ((sendActualState env (afterConsume s) mb).m_block.m_serverCommands
      0).m_sendActualStateArgs.m_numDegreeOfFreedomQ = _
    rw [hr]
  · show ((sendActualState env (afterConsume s) mb).m_block.m_serverCommands
      0).m_sendActualStateArgs.m_numDegreeOfFreedomU = _
    rw [hr]

/-- C4 at the sample server whose world holds the two-link sample multibody:
the first position variable of the second link is in Q[9], its second
velocity variable in U[8]. -/
theorem C4_actual_state_layout_witness :
    ∃ s1, stepSimulation sampleEnv (sampleServer 1 0 (sampleCommand 1 "") [sampleMultiBody]) 7 =
        some s1 ∧
      s1.m_block.m_actualStateQ 2 = 3 ∧
      s1.m_block.m_actualStateQ 9 = 300 ∧
      s1.m_block.m_actualStateQdot 8 = 401 := by
  obtain ⟨s1, h, -, -, a2, -, -, -, -, -, -, -, -, -, -, hq, hu, -, -⟩ :=
    C4_actual_state_layout sampleEnv (sampleServer 1 0 (sampleCommand 1 "") [sampleMultiBody]) 7
      sampleMultiBody [] rfl (by decide) rfl rfl
  exact ⟨s1, h, a2, hq 1 sampleLinkB rfl 0 (by decide), hu 1 sampleLinkB rfl 1 (by decide)⟩

/-- C5 fails as stated: at the sample server with one outstanding LOAD_MODEL
command whose server-issued counter holds the greatest int 2147483647, the
step returns with the counter at -2147483648, which is not the value before
plus 1. -/
theorem C5_counterexample :
    (sampleServerMax 1 0 (sampleCommand 0 "robot.urdf") []).m_testBlock1 = true ∧
    (sampleServerMax 1 0 (sampleCommand 0 "robot.urdf") []).m_block.m_numClientCommands =
      (sampleServerMax 1 0 (sampleCommand 0 "robot.urdf")
        []).m_block.m_numProcessedClientCommands + 1 ∧
    ((sampleServerMax 1 0 (sampleCommand 0 "robot.urdf") []).m_block.m_clientCommands 0).m_type =
      sampleEnv.tags.CMD_LOAD_URDF ∧
    ∃ s1, stepSimulation sampleEnv (sampleServerMax 1 0 (sampleCommand 0 "robot.urdf") []) 7 =
        some s1 ∧
      s1.m_block.m_numServerCommands = -2147483648 ∧
      s1.m_block.m_numServerCommands ≠
        (sampleServerMax 1 0 (sampleCommand 0 "robot.urdf") []).m_block.m_numServerCommands + 1 := by
  have hblk := (loadUrdf_frame sampleEnv
    (afterConsume (sampleServerMax 1 0 (sampleCommand 0 "robot.urdf") []))
    "robot.urdf" { x := 0, y := 0, z := 0 } { x := 0, y := 0, z := 0, w := 1 } true false).1
  have hn : (incNumServerCommands (setReplyType
      (loadUrdfOfCommand sampleEnv
        (afterConsume (sampleServerMax 1 0 (sampleCommand 0 "robot.urdf") []))
        ((sampleServerMax 1 0 (sampleCommand 0 "robot.urdf") []).m_block.m_clientCommands 0)).1
      (if (loadUrdfOfCommand sampleEnv
          (afterConsume (sampleServerMax 1 0 (sampleCommand 0 "robot.urdf") []))
          ((sampleServerMax 1 0 (sampleCommand 0 "robot.urdf") []).m_block.m_clientCommands
            0)).2 then sampleEnv.tags.CMD_URDF_LOADING_COMPLETED
        else sampleEnv.tags.CMD_URDF_LOADING_FAILED))).m_block.m_numServerCommands =
      -2147483648 := by
    show incrementInt (loadUrdf sampleEnv
      (afterConsume (sampleServerMax 1 0 (sampleCommand 0 "robot.urdf") []))
      "robot.urdf" { x := 0, y := 0, z := 0 } { x := 0, y := 0, z := 0, w := 1 } true
      false).1.m_block.m_numServerCommands = _
    rw [hblk]
    exact incrementInt_max
  refine ⟨rfl, by decide, rfl, _, stepSimulation_load sampleEnv _ 7 rfl (by decide) rfl, hn, ?_⟩
  rw [hn]
  show (-2147483648 : Int) ≠ 2147483647 + 1
  decide

/-- C5 as amended: with an allocated block and exactly one outstanding
LOAD_MODEL command, one stepSimulation returns, reply slot 0 has type
MODEL_LOADING_COMPLETED if and only if the call of loadUrdf on the command's
arguments returned true, and it has type MODEL_LOADING_FAILED otherwise; when
the server-issued counter holds an int below 2147483647, it has grown by
exactly 1 in both cases. The two reply enumerators are different. -/
theorem C5_load_model_reply {α : Type} (env : Collaborators α) (s : Server α) (deltaTime : α)
    (hb : s.m_testBlock1 = true)
    (hc : s.m_block.m_numClientCommands = s.m_block.m_numProcessedClientCommands + 1)
    (ht : (s.m_block.m_clientCommands 0).m_type = env.tags.CMD_LOAD_URDF)
    (hne : env.tags.CMD_URDF_LOADING_COMPLETED ≠ env.tags.CMD_URDF_LOADING_FAILED) :
    ∃ s1, stepSimulation env s deltaTime = some s1 ∧
      ((s1.m_block.m_serverCommands 0).m_type = env.tags.CMD_URDF_LOADING_COMPLETED ↔
        (loadUrdfOfCommand env (afterConsume s) (s.m_block.m_clientCommands 0)).2 = true) ∧
      ((loadUrdfOfCommand env (afterConsume s) (s.m_block.m_clientCommands 0)).2 = false →
        (s1.m_block.m_serverCommands 0).m_type = env.tags.CMD_URDF_LOADING_FAILED) ∧
      (-2147483648 ≤ s.m_block.m_numServerCommands →
        s.m_block.m_numServerCommands < 2147483647 →
        s1.m_block.m_numServerCommands = s.m_block.m_numServerCommands + 1) := by
  have hgt : s.m_block.m_numClientCommands > s.m_block.m_numProcessedClientCommands := by omega
  have hty : ∀ (t : Server α) (tag : Int),
      ((incNumServerCommands (setReplyType t tag)).m_block.m_serverCommands 0).m_type = tag := by
    intro t tag
    simp [incNumServerCommands, setReplyType, Server.emit]
  have hblk := (loadUrdf_frame env (afterConsume s)
    (s.m_block.m_clientCommands 0).m_urdfArguments.m_urdfFileName
    { x := env.zero, y := env.zero, z := env.zero }
    { x := env.zero, y := env.zero, z := env.zero, w := env.one }
    (s.m_block.m_clientCommands 0).m_urdfArguments.m_useMultiBody
    (s.m_block.m_clientCommands 0).m_urdfArguments.m_useFixedBase).1
  refine ⟨_, stepSimulation_load env s deltaTime hb hgt ht, ?_, ?_, ?_⟩
  · rw [hty]
    by_cases h : (loadUrdfOfCommand env (afterConsume s) (s.m_block.m_clientCommands 0)).2 = true
    · simp [h]
    · simp only [h, if_false, Bool.false_eq_true, iff_false]
      exact fun e => hne e.symm
  · intro h
    rw [hty, h]
    simp
  · intro h1 h2
    show incrementInt
      (loadUrdfOfCommand env (afterConsume s) (s.m_block.m_clientCommands 0)).1.m_block.m_numServerCommands
      = _
    unfold loadUrdfOfCommand
    rw [hblk]
    exact incrementInt_of_lt _ h1 h2

/-- C5 as amended, at the sample server with one outstanding command to load a
file the sample importer rejects and the server-issued counter at 4. -/
theorem C5_load_model_reply_witness :
    ∃ s1, stepSimulation sampleEnv (sampleServer 1 0 (sampleCommand 0 "missing.urdf") []) 7 =
        some s1 ∧
      ((s1.m_block.m_serverCommands 0).m_type = sampleEnv.tags.CMD_URDF_LOADING_COMPLETED ↔
        (loadUrdfOfCommand sampleEnv (afterConsume (sampleServer 1 0 (sampleCommand 0 "missing.urdf") []))
          ((sampleServer 1 0 (sampleCommand 0 "missing.urdf") []).m_block.m_clientCommands 0)).2 =
            true) ∧
      ((loadUrdfOfCommand sampleEnv (afterConsume (sampleServer 1 0 (sampleCommand 0 "missing.urdf") []))
          ((sampleServer 1 0 (sampleCommand 0 "missing.urdf") []).m_block.m_clientCommands 0)).2 =
            false →
        (s1.m_block.m_serverCommands 0).m_type = sampleEnv.tags.CMD_URDF_LOADING_FAILED) ∧
      s1.m_block.m_numServerCommands = 5 := by
  obtain ⟨s1, h, h1, h2, h3⟩ :=
    C5_load_model_reply sampleEnv (sampleServer 1 0 (sampleCommand 0 "missing.urdf") []) 7
      rfl (by decide) rfl (by decide)
  exact ⟨s1, h, h1, h2, h3 (by decide) (by decide)⟩

/-- C6: with an allocated block (obtained through a live shared-memory handle)
and exactly one outstanding SHUTDOWN command, one stepSimulation returns,
stores no reply (the server-command slots and the server-issued counter are
as before), sets the magic number of the block to 0, releases the shared
region once and deletes the handle, leaves both pointers null and makes
wantsTermination() true. -/
theorem C6_shutdown {α : Type} (env : Collaborators α) (s : Server α) (deltaTime : α)
    (hb : s.m_testBlock1 = true) (hs : s.m_sharedMemory = true)
    (hc : s.m_block.m_numClientCommands = s.m_block.m_numProcessedClientCommands + 1)
    (ht : (s.m_block.m_clientCommands 0).m_type = env.tags.CMD_SHUTDOWN) :
    ∃ s1, stepSimulation env s deltaTime = some s1 ∧
      s1.m_block.m_serverCommands = s.m_block.m_serverCommands ∧
      s1.m_block.m_numServerCommands = s.m_block.m_numServerCommands ∧
      s1.m_block.m_magicId = 0 ∧
      s1.m_testBlock1 = false ∧
      s1.m_sharedMemory = false ∧
      wantsTermination s1 = true ∧
      s1.events = s.events ++ [Event.btAssert 191 true, Event.btAssert 71 true,
        Event.releaseSharedRegion, Event.deleteSharedMemory] := by
  have hgt : s.m_block.m_numClientCommands > s.m_block.m_numProcessedClientCommands := by omega
  rw [stepSimulation_shutdown env s deltaTime hb hgt ht,
    releaseSharedMemory_allocated _ (by exact hb) (by exact hs)]
  refine ⟨_, rfl, rfl, rfl, rfl, rfl, rfl, rfl, ?_⟩
  simp [afterConsume, Server.emit, hc]

/-- C6 at the sample server with one outstanding shutdown command. -/
theorem C6_shutdown_witness :
    ∃ s1, stepSimulation sampleEnv (sampleServer 1 0 (sampleCommand 3 "") []) 7 = some s1 ∧
      s1.m_block.m_serverCommands =
        (sampleServer 1 0 (sampleCommand 3 "") []).m_block.m_serverCommands ∧
      s1.m_block.m_numServerCommands =
        (sampleServer 1 0 (sampleCommand 3 "") []).m_block.m_numServerCommands ∧
      s1.m_block.m_magicId = 0 ∧
      s1.m_testBlock1 = false ∧
      s1.m_sharedMemory = false ∧
      wantsTermination s1 = true ∧
      s1.events = (sampleServer 1 0 (sampleCommand 3 "") []).events ++
        [Event.btAssert 191 true, Event.btAssert 71 true, Event.releaseSharedRegion,
          Event.deleteSharedMemory] :=
  C6_shutdown sampleEnv (sampleServer 1 0 (sampleCommand 3 "") []) 7 rfl rfl (by decide) rfl

/-- C7: when stepSimulation consumes an outstanding command whose tag is none
of LOAD_MODEL, REQUEST_ACTUAL_STATE, STEP_FORWARD_SIMULATION and SHUTDOWN, it
returns after the unsupported-command error and the failing assertion of
line 336, stores nothing in the reply slots and leaves the server-issued
counter as it was; for each of the four defined tags (the handle being live)
it returns and the assertions it evaluates do not include that of line 336. -/
theorem C7_unsupported_command {α : Type} (env : Collaborators α) (s : Server α) (deltaTime : α)
    (hb : s.m_testBlock1 = true)
    (hc : s.m_block.m_numClientCommands > s.m_block.m_numProcessedClientCommands) :
    (((s.m_block.m_clientCommands 0).m_type ≠ env.tags.CMD_LOAD_URDF ∧
      (s.m_block.m_clientCommands 0).m_type ≠ env.tags.CMD_REQUEST_ACTUAL_STATE ∧
      (s.m_block.m_clientCommands 0).m_type ≠ env.tags.CMD_STEP_FORWARD_SIMULATION ∧
      (s.m_block.m_clientCommands 0).m_type ≠ env.tags.CMD_SHUTDOWN) →
      ∃ s1, stepSimulation env s deltaTime = some s1 ∧
        s1.events = s.events ++
          [Event.btAssert 191 (decide (s.m_block.m_numClientCommands =
              s.m_block.m_numProcessedClientCommands + 1)),
            Event.b3Error 335, Event.btAssert 336 false] ∧
        s1.m_block.m_serverCommands = s.m_block.m_serverCommands ∧
        s1.m_block.m_numServerCommands = s.m_block.m_numServerCommands) ∧
    (((s.m_block.m_clientCommands 0).m_type = env.tags.CMD_LOAD_URDF ∨
      (s.m_block.m_clientCommands 0).m_type = env.tags.CMD_REQUEST_ACTUAL_STATE ∨
      (s.m_block.m_clientCommands 0).m_type = env.tags.CMD_STEP_FORWARD_SIMULATION ∨
      (s.m_block.m_clientCommands 0).m_type = env.tags.CMD_SHUTDOWN) →
      s.m_sharedMemory = true →
      ∃ s1, stepSimulation env s deltaTime = some s1 ∧
        ∃ extra, assertsOf s1.events = assertsOf s.events ++ extra ∧
          ∀ c, (336, c) ∉ extra) := by
  constructor
  · rintro ⟨h1, h2, h3, h4⟩
    refine ⟨_, stepSimulation_default env s deltaTime hb hc h1 h2 h3 h4, ?_, rfl, rfl⟩
    simp [afterConsume, Server.emit]
  · intro ht hs
    obtain ⟨s1, h, ha, -⟩ := stepSimulation_consume env s deltaTime hb hs hc
    refine ⟨s1, h, _, ha, ?_⟩
    intro c hmem
    have hx : assertsAfterConsume env.tags (s.m_block.m_clientCommands 0).m_type = [] ∨
        assertsAfterConsume env.tags (s.m_block.m_clientCommands 0).m_type = [(71, true)] := by
      unfold assertsAfterConsume isReplyingTag
      rcases ht with h | h | h | h
      · simp [h]
      · simp [h]
      · simp [h]
      · simp [h, (tags_load_ne_shutdown env.tags).symm,
          (tags_request_ne_shutdown env.tags).symm, (tags_step_ne_shutdown env.tags).symm]
    rcases hx with hx | hx <;> rw [hx] at hmem <;> simp at hmem

/-- C7 at the sample server with one outstanding command of tag 42. -/
theorem C7_unsupported_command_witness :
    ∃ s1, stepSimulation sampleEnv (sampleServer 1 0 (sampleCommand 42 "") []) 7 = some s1 ∧
      s1.events = [Event.btAssert 191 true, Event.b3Error 335, Event.btAssert 336 false] ∧
      s1.m_block.m_serverCommands =
        (sampleServer 1 0 (sampleCommand 42 "") []).m_block.m_serverCommands ∧
      s1.m_block.m_numServerCommands = 4 :=
  (C7_unsupported_command sampleEnv (sampleServer 1 0 (sampleCommand 42 "") []) 7 rfl
    (by decide)).1 (by decide)

/-- C8: on a server with an allocated block (and live handle) stepSimulation
returns, and the assertion of line 191 on the number of outstanding commands
fails during the step exactly when numClientCommands > numProcessedClientCommands + 1;
when numClientCommands = numProcessedClientCommands + 1 it is evaluated and
holds, the processed counter grows by 1 and the step is the dispatch on the
command in client slot 0; when numClientCommands <= numProcessedClientCommands
no assertion is evaluated and the server is unchanged. -/
theorem C8_single_outstanding_assertion {α : Type} (env : Collaborators α) (s : Server α)
    (deltaTime : α) (hb : s.m_testBlock1 = true) (hs : s.m_sharedMemory = true) :
    ∃ s1, stepSimulation env s deltaTime = some s1 ∧
      ∃ extra, assertsOf s1.events = assertsOf s.events ++ extra ∧
        ((191, false) ∈ extra ↔
          s.m_block.m_numClientCommands > s.m_block.m_numProcessedClientCommands + 1) ∧
        (s.m_block.m_numClientCommands = s.m_block.m_numProcessedClientCommands + 1 →
          (191, true) ∈ extra ∧
          s1.m_block.m_numProcessedClientCommands =
            s.m_block.m_numProcessedClientCommands + 1 ∧
          stepSimulation env s deltaTime =
            finishStep (processCommand env (afterConsume s) (s.m_block.m_clientCommands 0))) ∧
        (s.m_block.m_numClientCommands ≤ s.m_block.m_numProcessedClientCommands →
          extra = [] ∧ s1 = s) := by
  by_cases hc : s.m_block.m_numClientCommands > s.m_block.m_numProcessedClientCommands
  · obtain ⟨s1, h, ha, -, hp, -⟩ := stepSimulation_consume env s deltaTime hb hs hc
    refine ⟨s1, h, _, ha, ?_, ?_, ?_⟩
    · constructor
      · intro hm
        rcases List.mem_cons.mp hm with e | e
        · have e2 : decide (s.m_block.m_numClientCommands =
              s.m_block.m_numProcessedClientCommands + 1) = false := (Prod.mk.inj e).2.symm
          have e3 := of_decide_eq_false e2
          omega
        · rcases mem_assertsAfterConsume _ _ _ e with e1 | e1
          · exact absurd (Prod.mk.inj e1).1 (by decide)
          · exact absurd (Prod.mk.inj e1).1 (by decide)
      · intro hgt
        have e : decide (s.m_block.m_numClientCommands =
            s.m_block.m_numProcessedClientCommands + 1) = false :=
          decide_eq_false (by omega)
        rw [e]
        exact List.mem_cons_self _ _
    · intro he
      refine ⟨?_, hp, ?_⟩
      · rw [decide_eq_true he]
        exact List.mem_cons_self _ _
      · rw [stepSimulation_outstanding env s deltaTime hb hc]
        rfl
    · intro hle
      omega
  · have hle : s.m_block.m_numClientCommands ≤ s.m_block.m_numProcessedClientCommands := by omega
    refine ⟨s, stepSimulation_idle env s deltaTime hle, [], by simp, ?_, ?_, ?_⟩
    · constructor
      · intro hm; simp at hm
      · intro hgt; omega
    · intro he; omega
    · intro _; exact ⟨rfl, rfl⟩

/-- C8 at the sample server with three issued and one processed command: the
assertion fails during the step. -/
theorem C8_single_outstanding_assertion_witness :
    ∃ s1, stepSimulation sampleEnv (sampleServer 3 1 (sampleCommand 2 "") []) 7 = some s1 ∧
      ∃ extra, assertsOf s1.events = extra ∧ (191, false) ∈ extra := by
  obtain ⟨s1, h, extra, ha, hf, -, -⟩ :=
    C8_single_outstanding_assertion sampleEnv (sampleServer 3 1 (sampleCommand 2 "") []) 7
      rfl rfl
  exact ⟨s1, h, extra, by simpa [sampleServer, assertsOf] using ha, hf.mpr (by decide)⟩

/-- C9 fails as stated: at the sample server with one outstanding
STEP_FORWARD_SIMULATION command whose server-issued counter holds the
greatest int 2147483647, the step returns with the counter at -2147483648,
which is less than its value before the step. -/
theorem C9_counterexample :
    (sampleServerMax 1 0 (sampleCommand 2 "") []).m_testBlock1 = true ∧
    ∃ s1, stepSimulation sampleEnv (sampleServerMax 1 0 (sampleCommand 2 "") []) 7 = some s1 ∧
      s1.m_block.m_numServerCommands = -2147483648 ∧
      ¬ (s1.m_block.m_numServerCommands ≥
        (sampleServerMax 1 0 (sampleCommand 2 "") []).m_block.m_numServerCommands) := by
  refine ⟨rfl, _, stepSimulation_step sampleEnv _ 7 rfl (by decide) rfl, incrementInt_max, ?_⟩
  show ¬ (incrementInt 2147483647 ≥ 2147483647)
  rw [incrementInt_max]
  decide

/-- C9 as amended: every stepSimulation on a server with an allocated block
(and live handle) returns; the client-processed counter is afterwards its
value before or that value plus 1, the client-issued counter and the
server-processed counter are unchanged, and when the server-issued counter
holds an int below 2147483647 it is afterwards its value before or that value
plus 1. -/
theorem C9_counters_monotone {α : Type} (env : Collaborators α) (s : Server α) (deltaTime : α)
    (hb : s.m_testBlock1 = true) (hs : s.m_sharedMemory = true) :
    ∃ s1, stepSimulation env s deltaTime = some s1 ∧
      (s1.m_block.m_numProcessedClientCommands = s.m_block.m_numProcessedClientCommands ∨
        s1.m_block.m_numProcessedClientCommands = s.m_block.m_numProcessedClientCommands + 1) ∧
      s1.m_block.m_numProcessedClientCommands ≥ s.m_block.m_numProcessedClientCommands ∧
      s1.m_block.m_numClientCommands = s.m_block.m_numClientCommands ∧
      s1.m_block.m_numProcessedServerCommands = s.m_block.m_numProcessedServerCommands ∧
      (-2147483648 ≤ s.m_block.m_numServerCommands →
        s.m_block.m_numServerCommands < 2147483647 →
        (s1.m_block.m_numServerCommands = s.m_block.m_numServerCommands ∨
          s1.m_block.m_numServerCommands = s.m_block.m_numServerCommands + 1) ∧
        s1.m_block.m_numServerCommands ≥ s.m_block.m_numServerCommands) := by
  by_cases hc : s.m_block.m_numClientCommands > s.m_block.m_numProcessedClientCommands
  · obtain ⟨s1, h, -, h1, h2, h3, h4, -⟩ := stepSimulation_consume env s deltaTime hb hs hc
    refine ⟨s1, h, Or.inr h2, by omega, h1, h3, ?_⟩
    intro r1 r2
    have hi := incrementInt_of_lt _ r1 r2
    rw [h4]
    split
    · exact ⟨Or.inr hi, by omega⟩
    · exact ⟨Or.inl rfl, le_refl _⟩
  · have hle : s.m_block.m_numClientCommands ≤ s.m_block.m_numProcessedClientCommands := by omega
    exact ⟨s, stepSimulation_idle env s deltaTime hle, Or.inl rfl, le_refl _, rfl, rfl,
      fun _ _ => ⟨Or.inl rfl, le_refl _⟩⟩

/-- C9 as amended, at the sample server with one outstanding step command and
the server-issued counter at 4. -/
theorem C9_counters_monotone_witness :
    ∃ s1, stepSimulation sampleEnv (sampleServer 1 0 (sampleCommand 2 "") []) 7 = some s1 ∧
      s1.m_block.m_numProcessedClientCommands ≥ 0 ∧
      s1.m_block.m_numServerCommands ≥ 4 ∧
      s1.m_block.m_numClientCommands = 1 ∧
      s1.m_block.m_numProcessedServerCommands = 4 := by
  obtain ⟨s1, h, -, h1, h3, h4, h5⟩ :=
    C9_counters_monotone sampleEnv (sampleServer 1 0 (sampleCommand 2 "") []) 7 rfl rfl
  exact ⟨s1, h, h1, (h5 (by decide) (by decide)).2, h3, h4⟩

/-- C10: when allocateSharedMemory returns null during initPhysics (called on a
server whose handle is live and which has not requested shutdown), initPhysics
returns without evaluating any assertion and with the block pointer null, and
any number of later stepSimulation calls, whatever their deltaTime, return a
server equal to the one initPhysics left: no command is consumed, no reply is
stored, wantsTermination() stays false and the world is untouched. -/
theorem C10_allocation_failure {α : Type} (env : Collaborators α) (s : Server α)
    (hs : s.m_sharedMemory = true) (hw : s.m_wantsShutdown = false) :
    ∃ s1, initPhysics env false s = some s1 ∧
      s1.m_testBlock1 = false ∧
      assertsOf s1.events = assertsOf s.events ∧
      s1.m_block = s.m_block ∧
      wantsTermination s1 = false ∧
      ∀ dts : List α, stepSimulationMany env s1 dts = some s1 := by
  refine ⟨(({ s with m_dynamicsWorld := env.createEmptyDynamicsWorld, m_testBlock1 := false } :
    Server α)).emit (Event.b3Error 121), ?_, rfl, ?_, rfl, hw, ?_⟩
  · unfold initPhysics
    simp [hs]
  · simp [Server.emit, assertsOf, List.filterMap_append]
  · intro dts
    exact stepSimulationMany_noBlock env _ rfl dts

/-- C10 at a freshly constructed server: two later steps change nothing. -/
theorem C10_allocation_failure_witness :
    ∃ s1, initPhysics sampleEnv false
        (construct (sampleBlock 1 0 (sampleCommand 3 "")) (sampleWorld [])) = some s1 ∧
      s1.m_testBlock1 = false ∧
      wantsTermination s1 = false ∧
      stepSimulationMany sampleEnv s1 [1, 2] = some s1 := by
  obtain ⟨s1, h, h1, -, -, h2, h3⟩ :=
    C10_allocation_failure sampleEnv
      (construct (sampleBlock 1 0 (sampleCommand 3 "")) (sampleWorld [])) rfl rfl
  exact ⟨s1, h, h1, h2, h3 [1, 2]⟩

/-- C11: loadUrdf returns false exactly when the importer fails to load the
file, or useMultiBody is true and the conversion produced no multibody; in
every other case it returns true (also for a world without constraints), and
when the importer succeeded with useMultiBody false, every constraint of the
world gets one new joint-feedback record of its own: with k records before
the call and n constraints, records k, ..., k+n-1 are pushed and record k+i
is set on constraint i. -/
theorem C11_loadUrdf_result {α : Type} (env : Collaborators α) (s : Server α) (fileName : String)
    (pos : btVector3 α) (orn : btQuaternion α) (useMultiBody useFixedBase : Bool) :
    ((loadUrdf env s fileName pos orn useMultiBody useFixedBase).2 = false ↔
      (env.loadURDF fileName = false ∨
        (useMultiBody = true ∧
          env.getBulletMultiBody fileName pos orn s.m_dynamicsWorld useMultiBody = false))) ∧
    ((loadUrdf env s fileName pos orn useMultiBody useFixedBase).2 = true ↔
      (env.loadURDF fileName = true ∧
        (env.getBulletMultiBody fileName pos orn s.m_dynamicsWorld useMultiBody = true ∨
          useMultiBody = false))) ∧
    (env.loadURDF fileName = true → useMultiBody = false →
      (loadUrdf env s fileName pos orn useMultiBody useFixedBase).1.m_jointFeedbacks =
        s.m_jointFeedbacks ++
          (List.range (env.ConvertURDF2Bullet fileName pos orn s.m_dynamicsWorld
            useMultiBody).m_constraints.length).map
            (fun i => s.m_jointFeedbacks.length + i) ∧
      (loadUrdf env s fileName pos orn useMultiBody useFixedBase).1.m_dynamicsWorld.m_constraints =
        (List.range (env.ConvertURDF2Bullet fileName pos orn s.m_dynamicsWorld
          useMultiBody).m_constraints.length).map
          (fun i => ({ m_jointFeedback := some (s.m_jointFeedbacks.length + i) } :
            btTypedConstraint))) := by
  refine ⟨?_, ?_, ?_⟩
  · unfold loadUrdf
    cases h1 : env.loadURDF fileName <;> cases useMultiBody <;>
      cases h3 : env.getBulletMultiBody fileName pos orn s.m_dynamicsWorld true <;> simp [h3]
  · unfold loadUrdf
    cases h1 : env.loadURDF fileName <;> cases useMultiBody <;>
      cases h3 : env.getBulletMultiBody fileName pos orn s.m_dynamicsWorld true <;> simp [h3]
  · intro h1 h2
    subst h2
    have hr := attachJointFeedback_range
      ({ s with m_dynamicsWorld :=
          env.ConvertURDF2Bullet fileName pos orn s.m_dynamicsWorld false } : Server α)
      (env.ConvertURDF2Bullet fileName pos orn s.m_dynamicsWorld false).m_constraints.length
      (le_refl _)
    unfold loadUrdf
    simp only [h1, if_true, Bool.false_eq_true, if_false]
    refine ⟨hr.1, ?_⟩
    rw [hr.2]
    simp

/-- C11 at the sample server, loading an accepted file without a multibody: the
only constraint of the world gets record 0. -/
theorem C11_loadUrdf_result_witness :
    (loadUrdf sampleEnv (sampleServer 0 0 (sampleCommand 0 "") []) "robot.urdf"
        { x := 0, y := 0, z := 0 } { x := 0, y := 0, z := 0, w := 1 } false false).1.m_jointFeedbacks =
      [0] ∧
    (loadUrdf sampleEnv (sampleServer 0 0 (sampleCommand 0 "") []) "robot.urdf"
        { x := 0, y := 0, z := 0 } { x := 0, y := 0, z := 0, w := 1 } false
        false).1.m_dynamicsWorld.m_constraints = [{ m_jointFeedback := some 0 }] :=
  (C11_loadUrdf_result sampleEnv (sampleServer 0 0 (sampleCommand 0 "") []) "robot.urdf"
    { x := 0, y := 0, z := 0 } { x := 0, y := 0, z := 0, w := 1 } false false).2.2
    (by decide) rfl

/-- C16: a successful initPhysics sets the four counters to 0 and the magic
number to SHARED_MEMORY_MAGIC_NUMBER whatever the block held; in every server
reachable from it by stepSimulation calls and by client submissions made only
when no command is outstanding, numServerCommands <= numProcessedClientCommands
<= numClientCommands, and every further stepSimulation returns without a
failing assertion of line 191 on the outstanding commands. -/
theorem C16_counter_invariant {α : Type} (env : Collaborators α) :
    (∀ s0 : Server α, s0.m_sharedMemory = true →
      ∃ s, initPhysics env true s0 = some s ∧
        s.m_block.m_numClientCommands = 0 ∧ s.m_block.m_numServerCommands = 0 ∧
        s.m_block.m_numProcessedClientCommands = 0 ∧
        s.m_block.m_numProcessedServerCommands = 0 ∧
        s.m_block.m_magicId = env.tags.SHARED_MEMORY_MAGIC_NUMBER) ∧
    (∀ s : Server α, ReachableFromInit env s →
      s.m_block.m_numServerCommands ≤ s.m_block.m_numProcessedClientCommands ∧
      s.m_block.m_numProcessedClientCommands ≤ s.m_block.m_numClientCommands ∧
      ∀ dt : α, ∃ s1, stepSimulation env s dt = some s1 ∧
        ∃ extra, assertsOf s1.events = assertsOf s.events ++ extra ∧
          (191, false) ∉ extra) := by
  constructor
  · intro s0 hs
    have hsome : ∃ s, initPhysics env true s0 = some s := by
      unfold initPhysics
      simp [hs]
    obtain ⟨s, h⟩ := hsome
    obtain ⟨-, -, -, h3, h4, h5, h6, h7⟩ := initPhysics_allocated env s0 s h
    exact ⟨s, h, h3, h4, h5, h6, h7⟩
  · intro s hr
    obtain ⟨i1, i2, i3, i4, -⟩ := reachableFromInit_invariant env s hr
    refine ⟨i1, i2, ?_⟩
    intro dt
    cases hb : s.m_testBlock1 with
    | false => exact ⟨s, stepSimulation_noBlock env s dt hb, [], by simp, by simp⟩
    | true =>
      by_cases hc : s.m_block.m_numClientCommands > s.m_block.m_numProcessedClientCommands
      · obtain ⟨s1, h1, ha, -⟩ := stepSimulation_consume env s dt hb (i4 hb) hc
        refine ⟨s1, h1, _, ha, ?_⟩
        intro hm
        rcases List.mem_cons.mp hm with e | e
        · have e2 : decide (s.m_block.m_numClientCommands =
              s.m_block.m_numProcessedClientCommands + 1) = false := (Prod.mk.inj e).2.symm
          have e3 := of_decide_eq_false e2
          omega
        · rcases mem_assertsAfterConsume _ _ _ e with e1 | e1
          · exact absurd (Prod.mk.inj e1).1 (by decide)
          · exact absurd (Prod.mk.inj e1).1 (by decide)
      · exact ⟨s, stepSimulation_idle env s dt (by omega), [], by simp, by simp⟩

/-- C16 at the server reached from the constructed sample server by a
successful initPhysics and one client submission. -/
theorem C16_counter_invariant_witness :
    ∃ s, initPhysics sampleEnv true
        (construct (sampleBlock 5 2 (sampleCommand 3 "")) (sampleWorld [])) = some s ∧
      (clientSubmit s (sampleCommand 2 "")).m_block.m_numServerCommands ≤
        (clientSubmit s (sampleCommand 2 "")).m_block.m_numProcessedClientCommands ∧
      (clientSubmit s (sampleCommand 2 "")).m_block.m_numProcessedClientCommands ≤
        (clientSubmit s (sampleCommand 2 "")).m_block.m_numClientCommands := by
  obtain ⟨s, h, h1, -, h3, -, -⟩ := (C16_counter_invariant sampleEnv).1
    (construct (sampleBlock 5 2 (sampleCommand 3 "")) (sampleWorld [])) rfl
  have hr : ReachableFromInit sampleEnv (clientSubmit s (sampleCommand 2 "")) :=
    ReachableFromInit.submit s _ (ReachableFromInit.init _ s h) (by rw [h1, h3])
  obtain ⟨a, b, -⟩ := (C16_counter_invariant sampleEnv).2 _ hr
  exact ⟨s, h, a, b⟩

/-- C17: on a server with an allocated block in which
numClientCommands <= numProcessedClientCommands, stepSimulation returns the
server it was given: the whole shared block (counters, command slots, Q and U
arrays, magic number), the dynamics world, the shutdown flag and the trace of
effects are unchanged. -/
theorem C17_idle_step_frame {α : Type} (env : Collaborators α) (s : Server α) (deltaTime : α)
    (hb : s.m_testBlock1 = true)
    (hc : s.m_block.m_numClientCommands ≤ s.m_block.m_numProcessedClientCommands) :
    stepSimulation env s deltaTime = some s ∧
      ∀ s1, stepSimulation env s deltaTime = some s1 →
        s1.m_block = s.m_block ∧ s1.m_dynamicsWorld = s.m_dynamicsWorld ∧
        wantsTermination s1 = wantsTermination s ∧ s1.m_testBlock1 = true := by
  have h := stepSimulation_idle env s deltaTime hc
  refine ⟨h, ?_⟩
  intro s1 h1
  rw [h] at h1
  cases h1
  exact ⟨rfl, rfl, rfl, hb⟩

/-- C17 at the sample server with two issued and two processed commands. -/
theorem C17_idle_step_frame_witness :
    stepSimulation sampleEnv (sampleServer 2 2 (sampleCommand 3 "") [sampleMultiBody]) 7 =
      some (sampleServer 2 2 (sampleCommand 3 "") [sampleMultiBody]) :=
  (C17_idle_step_frame sampleEnv (sampleServer 2 2 (sampleCommand 3 "") [sampleMultiBody]) 7
    rfl (by decide)).1

/-- C18: stepSimulation gives the same result for any two values of deltaTime;
when the consumed command is STEP_FORWARD_SIMULATION the world afterwards is
the world before advanced by one world step with the command's
deltaTimeInSeconds; in every other case (no block, no outstanding command, or
a consumed command with another tag) the result is the same whatever function
steps the world, so the world step is not used. -/
theorem C18_deltaTime_independence {α : Type} (env : Collaborators α) (s : Server α) :
    (∀ dt1 dt2 : α, stepSimulation env s dt1 = stepSimulation env s dt2) ∧
    ((s.m_testBlock1 = true ∧
        s.m_block.m_numClientCommands > s.m_block.m_numProcessedClientCommands ∧
        (s.m_block.m_clientCommands 0).m_type = env.tags.CMD_STEP_FORWARD_SIMULATION) →
      ∀ dt : α, ∃ s1, stepSimulation env s dt = some s1 ∧
        s1.m_dynamicsWorld = env.worldStepSimulation s.m_dynamicsWorld
          (s.m_block.m_clientCommands 0).m_stepSimulationArguments.m_deltaTimeInSeconds) ∧
    (¬ (s.m_testBlock1 = true ∧
        s.m_block.m_numClientCommands > s.m_block.m_numProcessedClientCommands ∧
        (s.m_block.m_clientCommands 0).m_type = env.tags.CMD_STEP_FORWARD_SIMULATION) →
      ∀ (dt : α) (f : btMultiBodyDynamicsWorld α → α → btMultiBodyDynamicsWorld α),
        stepSimulation (withWorldStep env f) s dt = stepSimulation env s dt) := by
  refine ⟨fun dt1 dt2 => stepSimulation_deltaTime env s dt1 dt2, ?_, ?_⟩
  · rintro ⟨hb, hc, ht⟩ dt
    exact ⟨_, stepSimulation_step env s dt hb hc ht, rfl⟩
  · intro hn dt f
    cases hb : s.m_testBlock1 with
    | false => rw [stepSimulation_noBlock env s dt hb, stepSimulation_noBlock _ s dt hb]
    | true =>
      by_cases hc : s.m_block.m_numClientCommands > s.m_block.m_numProcessedClientCommands
      · have ht : (s.m_block.m_clientCommands 0).m_type ≠
            env.tags.CMD_STEP_FORWARD_SIMULATION := fun e => hn ⟨hb, hc, e⟩
        rw [stepSimulation_outstanding env s dt hb hc,
          stepSimulation_outstanding (withWorldStep env f) s dt hb hc]
        simp only [processCommand_withWorldStep env f _ _ ht]
      · rw [stepSimulation_idle env s dt (by omega), stepSimulation_idle _ s dt (by omega)]

/-- C18 at the sample server with one outstanding step command whose
deltaTimeInSeconds is 5. -/
theorem C18_deltaTime_independence_witness :
    ∃ s1, stepSimulation sampleEnv (sampleServer 1 0 (sampleCommand 2 "") []) 7 = some s1 ∧
      s1.m_dynamicsWorld = sampleEnv.worldStepSimulation (sampleWorld []) 5 :=
  (C18_deltaTime_independence sampleEnv (sampleServer 1 0 (sampleCommand 2 "") [])).2.1
    ⟨rfl, by decide, rfl⟩ 7

/-- C19: in every server reachable through the constructor, initPhysics,
stepSimulation and releaseSharedMemory (and changes of the block by a client),
a non-null block pointer implies a non-null handle; releaseSharedMemory then
returns without a failing assertion and leaves both pointers null; a second
call, or the destructor, returns the same server, so it performs no release
of the shared region and no second delete; calling it twice equals calling it
once; and any number of later stepSimulation calls return that server
unchanged, consuming no command. -/
theorem C19_release_idempotent {α : Type} (env : Collaborators α) (s : Server α)
    (h : ReachableFromConstructor env s) :
    (s.m_testBlock1 = true → s.m_sharedMemory = true) ∧
    ∃ s1, releaseSharedMemory s = some s1 ∧
      (∃ extra, assertsOf s1.events = assertsOf s.events ++ extra ∧ ∀ x ∈ extra, x.2 = true) ∧
      s1.m_testBlock1 = false ∧ s1.m_sharedMemory = false ∧
      releaseSharedMemory s1 = some s1 ∧
      destructor s1 = some s1 ∧
      (releaseSharedMemory s).bind releaseSharedMemory = releaseSharedMemory s ∧
      ∀ dts : List α, stepSimulationMany env s1 dts = some s1 := by
  have hinv := reachableFromConstructor_invariant env s h
  refine ⟨hinv, ?_⟩
  have key : ∀ s1 : Server α, releaseSharedMemory s = some s1 →
      (∃ extra, assertsOf s1.events = assertsOf s.events ++ extra ∧ ∀ x ∈ extra, x.2 = true) →
      ∃ s1, releaseSharedMemory s = some s1 ∧
        (∃ extra, assertsOf s1.events = assertsOf s.events ++ extra ∧
          ∀ x ∈ extra, x.2 = true) ∧
        s1.m_testBlock1 = false ∧ s1.m_sharedMemory = false ∧
        releaseSharedMemory s1 = some s1 ∧
        destructor s1 = some s1 ∧
        (releaseSharedMemory s).bind releaseSharedMemory = releaseSharedMemory s ∧
        ∀ dts : List α, stepSimulationMany env s1 dts = some s1 := by
    intro s1 h1 ha
    obtain ⟨n1, n2⟩ := releaseSharedMemory_null s s1 h1
    have h2 := releaseSharedMemory_released s1 n1 n2
    refine ⟨s1, h1, ha, n1, n2, h2, h2, ?_, fun dts => stepSimulationMany_noBlock env s1 n1 dts⟩
    rw [h1, Option.some_bind, h2]
  cases hb : s.m_testBlock1 <;> cases hs : s.m_sharedMemory
  · exact key _ (releaseSharedMemory_released s hb hs) ⟨[], by simp, by simp⟩
  · refine key _ (releaseSharedMemory_handleOnly s hb hs) ⟨[], ?_, by simp⟩
    simp [assertsOf, List.filterMap_append]
  · rw [hinv hb] at hs
    exact absurd hs (by decide)
  · refine key _ (releaseSharedMemory_allocated s hb hs) ⟨[(71, true)], ?_, by simp⟩
    simp [assertsOf, List.filterMap_append]

/-- C19 at the server reached from the constructed sample server by a
successful initPhysics, a shutdown command written by the client and one
stepSimulation: the destructor then changes nothing. -/
theorem C19_release_idempotent_witness :
    ∃ s0 s, initPhysics sampleEnv true
        (construct (sampleBlock 0 0 (sampleCommand 3 "")) (sampleWorld [])) = some s0 ∧
      stepSimulation sampleEnv { s0 with m_block := sampleBlock 1 0 (sampleCommand 3 "") } 7 =
        some s ∧
      ∃ s1, releaseSharedMemory s = some s1 ∧ destructor s1 = some s1 ∧
        s1.m_testBlock1 = false ∧ s1.m_sharedMemory = false := by
  have r0 : ReachableFromConstructor sampleEnv
      (construct (sampleBlock 0 0 (sampleCommand 3 "")) (sampleWorld [])) :=
    ReachableFromConstructor.construct _ _
  obtain ⟨s0, h0⟩ : ∃ s0, initPhysics sampleEnv true
      (construct (sampleBlock 0 0 (sampleCommand 3 "")) (sampleWorld [])) = some s0 := ⟨_, rfl⟩
  have r1 := ReachableFromConstructor.clientWrite s0 (sampleBlock 1 0 (sampleCommand 3 ""))
    (ReachableFromConstructor.init _ s0 true r0 h0)
  obtain ⟨s, h2, -⟩ := stepSimulation_total sampleEnv
    { s0 with m_block := sampleBlock 1 0 (sampleCommand 3 "") } 7
    (reachableFromConstructor_invariant sampleEnv _ r1)
  obtain ⟨-, s1, a1, -, a3, a4, -, a6, -⟩ :=
    C19_release_idempotent sampleEnv s (ReachableFromConstructor.step _ s 7 r1 h2)
  exact ⟨s0, s, h0, h2, s1, a1, a6, a3, a4⟩

end PhysicsServer

namespace btSoftBody

/-- C12: every Body made by one of the three constructors has m_soft and
m_rigid not both non-null, has m_collisionObject null when m_soft is non-null,
and is of exactly one of the kinds Cluster, Rigid Body (collision object) and
None. -/
theorem C12_body_one_kind {α O : Type} (ops : Collaborators α O) (h : Heap α O)
    (p colObj : Option Nat) (b : Body)
    (hb : b = Body.default ∨ b = Body.ofCluster p ∨ b = Body.ofCollisionObject ops h colObj) :
    ¬ (b.m_soft.isSome = true ∧ b.m_rigid.isSome = true) ∧
    (b.m_soft.isSome = true → b.m_collisionObject = none) ∧
    ∃! k : BodyKind, b.isKind k = true := by
  rcases hb with e | e | e
  · subst e
    refine ⟨by simp [Body.default], fun _ => rfl, BodyKind.none, rfl, ?_⟩
    intro k hk
    cases k <;> simp [Body.isKind, Body.default] at hk ⊢
  · subst e
    cases p with
    | none =>
      refine ⟨by simp [Body.ofCluster], fun _ => rfl, BodyKind.none, rfl, ?_⟩
      intro k hk
      cases k <;> simp [Body.isKind, Body.ofCluster] at hk ⊢
    | some c =>
      refine ⟨by simp [Body.ofCluster], fun _ => rfl, BodyKind.cluster, rfl, ?_⟩
      intro k hk
      cases k <;> simp [Body.isKind, Body.ofCluster] at hk ⊢
  · subst e
    cases colObj with
    | none =>
      refine ⟨by simp [Body.ofCollisionObject], by simp [Body.ofCollisionObject],
        BodyKind.none, by simp [Body.isKind, Body.ofCollisionObject, upcast], ?_⟩
      intro k hk
      cases k <;> simp [Body.isKind, Body.ofCollisionObject, upcast] at hk ⊢
    | some a =>
      refine ⟨by simp [Body.ofCollisionObject], by simp [Body.ofCollisionObject],
        BodyKind.rigidBody, by simp [Body.isKind, Body.ofCollisionObject], ?_⟩
      intro k hk
      cases k <;> simp [Body.isKind, Body.ofCollisionObject] at hk ⊢

/-- C12 at the body made from the collision object at address 3 of the sample
heap, which is a rigid body. -/
theorem C12_body_one_kind_witness :
    ¬ ((Body.ofCollisionObject sampleOps sampleHeap (some 3)).m_soft.isSome = true ∧
      (Body.ofCollisionObject sampleOps sampleHeap (some 3)).m_rigid.isSome = true) ∧
    ((Body.ofCollisionObject sampleOps sampleHeap (some 3)).m_soft.isSome = true →
      (Body.ofCollisionObject sampleOps sampleHeap (some 3)).m_collisionObject = none) ∧
    ∃! k : BodyKind, (Body.ofCollisionObject sampleOps sampleHeap (some 3)).isKind k = true :=
  C12_body_one_kind sampleOps sampleHeap none (some 3) _ (Or.inr (Or.inr rfl))

/-- C13: a newly constructed contact joint has m_delete false; after any
sequence of Prepare calls the life counter has grown by the number of calls
and the maximum life is as before; and each further Prepare increases m_life
by exactly 1 and leaves m_delete true if and only if the new m_life is
greater than m_maxlife. -/
theorem C13_contact_joint_life {α : Type} (j : CJoint) (calls : List (α × Int)) (dt : α)
    (iterations life maxlife : Int) :
    (CJoint.construct life maxlife).m_delete = false ∧
    (j.PrepareMany calls).m_life = j.m_life + calls.length ∧
    (j.PrepareMany calls).m_maxlife = j.m_maxlife ∧
    ((j.PrepareMany calls).Prepare dt iterations).m_life = (j.PrepareMany calls).m_life + 1 ∧
    (((j.PrepareMany calls).Prepare dt iterations).m_delete = true ↔
      ((j.PrepareMany calls).Prepare dt iterations).m_life >
        ((j.PrepareMany calls).Prepare dt iterations).m_maxlife) := by
  have hmany : ∀ (calls : List (α × Int)) (j : CJoint),
      (j.PrepareMany calls).m_life = j.m_life + calls.length ∧
      (j.PrepareMany calls).m_maxlife = j.m_maxlife := by
    intro calls
    induction calls with
    | nil => intro j; simp [CJoint.PrepareMany]
    | cons a rest ih =>
      intro j
      obtain ⟨h1, h2⟩ := ih (j.Prepare a.1 a.2)
      constructor
      · show ((j.Prepare a.1 a.2).PrepareMany rest).m_life = _
        rw [h1]
        simp only [CJoint.Prepare, List.length_cons]
        push_cast
        omega
      · show ((j.Prepare a.1 a.2).PrepareMany rest).m_maxlife = _
        rw [h2]
        rfl
  refine ⟨rfl, (hmany calls j).1, (hmany calls j).2, rfl, ?_⟩
  simp [CJoint.Prepare]

/-- C14: for a mesh with T > 0 tetrahedra the clusters of generateClusters(0)
are T in number and the i-th holds exactly the 4 nodes of the i-th
tetrahedron; for a mesh without tetrahedra and with F faces they are F in
number and the i-th holds exactly the 3 nodes of the i-th face. -/
theorem C14_generateClusters_zero (body : Mesh) :
    (body.m_tetras ≠ [] →
      (generateClustersZero body).length = body.m_tetras.length ∧
      ∀ (i : Nat) (t : Tetra), body.m_tetras[i]? = some t →
        (generateClustersZero body)[i]? = some [t.m_n 0, t.m_n 1, t.m_n 2, t.m_n 3]) ∧
    (body.m_tetras = [] →
      (generateClustersZero body).length = body.m_faces.length ∧
      ∀ (i : Nat) (f : Face), body.m_faces[i]? = some f →
        (generateClustersZero body)[i]? = some [f.m_n 0, f.m_n 1, f.m_n 2]) := by
  constructor
  · intro hne
    have hpos : body.m_tetras.length > 0 := List.length_pos.mpr hne
    unfold generateClustersZero
    rw [if_pos hpos]
    refine ⟨by simp, ?_⟩
    intro i t ht
    rw [List.getElem?_map, ht]
    rfl
  · intro he
    unfold generateClustersZero
    rw [he]
    refine ⟨by simp, ?_⟩
    intro i f hf
    simp only [List.length_nil, gt_iff_lt, lt_self_iff_false, if_false]
    rw [List.getElem?_map, hf]
    rfl

/-- C14 at the sample meshes: two clusters of four nodes for the volume, two
clusters of three nodes for the surface. -/
theorem C14_generateClusters_zero_witness :
    (generateClustersZero sampleVolume).length = 2 ∧
    (generateClustersZero sampleVolume)[1]? = some [4, 5, 6, 7] ∧
    (generateClustersZero sampleSurface).length = 2 ∧
    (generateClustersZero sampleSurface)[1]? = some [1, 2, 3] :=
  ⟨((C14_generateClusters_zero sampleVolume).1 (by simp [sampleVolume])).1,
    ((C14_generateClusters_zero sampleVolume).1 (by simp [sampleVolume])).2 1
      { m_n := fun i => 4 + i.val } rfl,
    ((C14_generateClusters_zero sampleSurface).2 rfl).1,
    ((C14_generateClusters_zero sampleSurface).2 rfl).2 1 { m_n := fun i => 1 + i.val } rfl⟩

/-- C15: for the default-constructed Body, invMass() is 0, linearVelocity() and
angularVelocity() are the zero vector, velocity(rpos) is the zero vector for
every rpos (the scalar sum 0 + 0 being 0), invWorldInertia() is the zero
matrix, xform() is the identity transform, and each of applyVImpulse,
applyDImpulse, applyImpulse, applyVAImpulse, applyDAImpulse, applyAImpulse
and applyDCImpulse leaves every cluster and every rigid body as it was. -/
theorem C15_default_body {α O : Type} [Zero α] [One α] [Add α] (ops : Collaborators α O)
    (h : Heap α O) (h00 : (0 : α) + 0 = 0) :
    Body.default.invMass ops h = 0 ∧
    Body.default.linearVelocity ops h = vzero ∧
    Body.default.angularVelocity ops h = vzero ∧
    (∀ rpos, Body.default.velocity ops h rpos = vzero) ∧
    Body.default.invWorldInertia ops h = zeroMatrix ∧
    Body.default.xform ops h = getIdentity ∧
    (∀ (v rpos : PhysicsServer.btVector3 α) (i : Impulse α),
      Body.default.applyVImpulse ops v rpos h = h ∧
      Body.default.applyDImpulse ops v rpos h = h ∧
      Body.default.applyImpulse ops i rpos h = h ∧
      Body.default.applyVAImpulse ops v h = h ∧
      Body.default.applyDAImpulse ops v h = h ∧
      Body.default.applyAImpulse ops i h = h ∧
      Body.default.applyDCImpulse ops v h = h) := by
  refine ⟨rfl, rfl, rfl, ?_, rfl, rfl, ?_⟩
  · intro rpos
    show vadd vzero vzero = vzero
    simp [vadd, vzero, h00]
  · intro v rpos i
    refine ⟨rfl, rfl, ?_, rfl, rfl, ?_, rfl⟩
    · unfold Body.applyImpulse
      cases i.m_asVelocity <;> cases i.m_asDrift <;> rfl
    · unfold Body.applyAImpulse
      cases i.m_asVelocity <;> cases i.m_asDrift <;> rfl

/-- C15 over the integers at the sample heap: the velocity of the default body
at a point is zero and an impulse with both flags set changes nothing. -/
theorem C15_default_body_witness :
    Body.default.velocity sampleOps sampleHeap { x := 1, y := 2, z := 3 } = vzero ∧
    Body.default.applyImpulse sampleOps { sampleImpulse with m_asDrift := true }
      { x := 1, y := 2, z := 3 } sampleHeap = sampleHeap :=
  ⟨(C15_default_body sampleOps sampleHeap (by decide)).2.2.2.1 { x := 1, y := 2, z := 3 },
    ((C15_default_body sampleOps sampleHeap (by decide)).2.2.2.2.2.2
      vzero { x := 1, y := 2, z := 3 } { sampleImpulse with m_asDrift := true }).2.2.1⟩

/-- C20: for every Impulse i and scalar x, -i and i*x have the flags
m_asVelocity and m_asDrift of i; every component of m_velocity and of m_drift
is negated in -i and multiplied by x in i*x; the scalar negation being an
involution, -(-i) = i; Body::applyImpulse and applyAImpulse of -i apply the
negated velocity part exactly when m_asVelocity of i is set and then the
negated drift part exactly when m_asDrift of i is set; and a
default-constructed Impulse applies nothing. -/
theorem C20_impulse_algebra {α O : Type} [Zero α] [Neg α] [Mul α] (ops : Collaborators α O)
    (i : Impulse α) (x : α) (hneg : ∀ a : α, - (- a) = a) :
    (i.neg.m_asVelocity = i.m_asVelocity ∧ i.neg.m_asDrift = i.m_asDrift ∧
      i.neg.m_velocity =
        { x := -i.m_velocity.x, y := -i.m_velocity.y, z := -i.m_velocity.z } ∧
      i.neg.m_drift = { x := -i.m_drift.x, y := -i.m_drift.y, z := -i.m_drift.z }) ∧
    ((i.mul x).m_asVelocity = i.m_asVelocity ∧ (i.mul x).m_asDrift = i.m_asDrift ∧
      (i.mul x).m_velocity =
        { x := i.m_velocity.x * x, y := i.m_velocity.y * x, z := i.m_velocity.z * x } ∧
      (i.mul x).m_drift =
        { x := i.m_drift.x * x, y := i.m_drift.y * x, z := i.m_drift.z * x }) ∧
    i.neg.neg = i ∧
    (∀ (b : Body) (rpos : PhysicsServer.btVector3 α) (h : Heap α O),
      b.applyImpulse ops i.neg rpos h =
        (if i.m_asDrift then
          b.applyDImpulse ops { x := -i.m_drift.x, y := -i.m_drift.y, z := -i.m_drift.z } rpos
            (if i.m_asVelocity then
              b.applyVImpulse ops
                { x := -i.m_velocity.x, y := -i.m_velocity.y, z := -i.m_velocity.z } rpos h
            else h)
        else if i.m_asVelocity then
          b.applyVImpulse ops
            { x := -i.m_velocity.x, y := -i.m_velocity.y, z := -i.m_velocity.z } rpos h
        else h) ∧
      b.applyAImpulse ops i.neg h =
        (if i.m_asDrift then
          b.applyDAImpulse ops { x := -i.m_drift.x, y := -i.m_drift.y, z := -i.m_drift.z }
            (if i.m_asVelocity then
              b.applyVAImpulse ops
                { x := -i.m_velocity.x, y := -i.m_velocity.y, z := -i.m_velocity.z } h
            else h)
        else if i.m_asVelocity then
          b.applyVAImpulse ops
            { x := -i.m_velocity.x, y := -i.m_velocity.y, z := -i.m_velocity.z } h
        else h) ∧
      b.applyImpulse ops Impulse.default rpos h = h ∧
      b.applyAImpulse ops Impulse.default h = h) := by
  refine ⟨⟨rfl, rfl, rfl, rfl⟩, ⟨rfl, rfl, rfl, rfl⟩, ?_, ?_⟩
  · obtain ⟨⟨vx, vy, vz⟩, ⟨dx, dy, dz⟩, av, ad⟩ := i
    simp [Impulse.neg, vneg, hneg]
  · intro b rpos h
    exact ⟨rfl, rfl, rfl, rfl⟩

/-- C20 over the integers at the sample impulse, whose velocity flag alone is
set: twice the impulse has every component doubled and the same flags, the
negated impulse has every component negated, negating twice gives the impulse
back, and applying the negated impulse to a cluster body applies the negated
velocity part only. -/
theorem C20_impulse_algebra_witness :
    (sampleImpulse.mul 2).m_velocity = { x := 2, y := 4, z := 6 } ∧
    (sampleImpulse.mul 2).m_drift = { x := 8, y := 10, z := 12 } ∧
    (sampleImpulse.mul 2).m_asVelocity = true ∧ (sampleImpulse.mul 2).m_asDrift = false ∧
    sampleImpulse.neg.m_velocity = { x := -1, y := -2, z := -3 } ∧
    sampleImpulse.neg.m_drift = { x := -4, y := -5, z := -6 } ∧
    sampleImpulse.neg.neg = sampleImpulse ∧
    (Body.ofCluster (some 0)).applyImpulse sampleOps sampleImpulse.neg vzero sampleHeap =
      (Body.ofCluster (some 0)).applyVImpulse sampleOps { x := -1, y := -2, z := -3 } vzero
        sampleHeap :=
  ⟨(C20_impulse_algebra sampleOps sampleImpulse 2 (fun a => neg_neg a)).2.1.2.2.1,
    (C20_impulse_algebra sampleOps sampleImpulse 2 (fun a => neg_neg a)).2.1.2.2.2,
    (C20_impulse_algebra sampleOps sampleImpulse 2 (fun a => neg_neg a)).2.1.1,
    (C20_impulse_algebra sampleOps sampleImpulse 2 (fun a => neg_neg a)).2.1.2.1,
    (C20_impulse_algebra sampleOps sampleImpulse 2 (fun a => neg_neg a)).1.2.2.1,
    (C20_impulse_algebra sampleOps sampleImpulse 2 (fun a => neg_neg a)).1.2.2.2,
    (C20_impulse_algebra sampleOps sampleImpulse 2 (fun a => neg_neg a)).2.2.1,
    ((C20_impulse_algebra sampleOps sampleImpulse 2 (fun a => neg_neg a)).2.2.2
      (Body.ofCluster (some 0)) vzero sampleHeap).1⟩

end btSoftBody
